import Mathlib

/-!
Verification of the business-math-trainer question engine.

The repository contains two parallel engine implementations:
  * variant 1 (`src/questionGenerator.ts`): templates keyed by
    `(difficulty, type)`, retry bound 30, recency bound `MAX_RECENT = 50`;
  * variant 2 (an unnamed second generator file): "precise" vs "estimate"
    template pools keyed by `type`, retry bound 50, `MAX_RECENT = 100`.

This file embeds both engines shallowly:
  * JS numbers are modelled as exact rationals `ℚ`; the single place where
    IEEE non-finiteness matters (the error-percent division of the grader)
    is modelled by the `ErrorValue` marker type;
  * `Math.random()`-driven choices are modelled by an explicit oracle
    `RNG := Nat → Nat`: each primitive draw reads one slot of the oracle,
    and `arr[Math.floor(Math.random() * arr.length)]` becomes an index
    reduced modulo the pool size, so universally quantified theorems cover
    every sequence of random outcomes;
  * the module-level recency `Set<string>` is threaded explicitly as a
    `List String` in insertion order (a JS `Set` iterates in insertion
    order and re-adding a present element does not move it);
  * string formatting (`toLocaleString`, `toFixed`) is cosmetic for every
    property below and is rendered with plain `toString`.
-/

namespace QGen

/-- The answer-validation mode of a question (`'accurate' | 'estimate'`). -/
inductive QuestionType where
  | accurate
  | estimate
deriving DecidableEq, Repr

/-- A difficulty tier (`'easy' | 'medium' | 'tough'`). -/
inductive Difficulty where
  | easy
  | medium
  | tough
deriving DecidableEq, Repr

/-- The optional diagnostic `meta` payload of a `Question`: the operand
values and operation tag that produced the answer. -/
structure QMeta where
  baseValue : ℚ
  percent : Option ℚ
  secondValue : Option ℚ
  operation : String
deriving DecidableEq, Repr

/-- A generated question, as in `types.ts` / the spec data model. -/
structure Question where
  id : String
  type : QuestionType
  difficulty : Difficulty
  prompt : String
  correctAnswer : ℚ
  meta : Option QMeta
deriving DecidableEq, Repr

/-- An oracle of random draws: slot `n` is the `n`-th primitive random
value consumed by one template invocation. -/
abbrev RNG := Nat → Nat

/-- The recency set, in insertion order (oldest first). -/
abbrev RState := List String

/-- Re-index an oracle, giving a template the draws after the first `k`. -/
def shiftRNG (r : RNG) (k : Nat) : RNG := fun n => r (n + k)

/-- Models `randomChoice(arr) = arr[Math.floor(Math.random() * arr.length)]`:
the raw draw `n` is reduced modulo the pool size. -/
def randomChoice {α : Type} (l : List α) (dflt : α) (n : Nat) : α :=
  l.getD (n % l.length) dflt

/-- Models `randomInt(min, max) = Math.floor(Math.random() * (max - min + 1)) + min`. -/
def randomInt (lo hi : Nat) (n : Nat) : Nat := lo + n % (hi - lo + 1)

/-- Models a `Math.random() > 0.5` coin flip. -/
def coinFlip (n : Nat) : Bool := n % 2 == 1

/-- Models `generateId()`: an opaque identifier derived from a random draw. -/
def generateId (n : Nat) : String := "q" ++ toString n

/-- Models `formatNumber(num) = num.toLocaleString('en-US')`; the locale
separators are cosmetic and are not rendered. -/
def formatNumber (num : ℚ) : String := toString num

/-- JS `Math.round` on an exact rational: round half toward positive
infinity, `Math.round(x) = Math.floor(x + 0.5)`. -/
def jsRound (q : ℚ) : ℤ := ⌊q + 1 / 2⌋

/-- Models `roundToNiceNumber(num, significance)`: round to `significance`
significant decimal digits. -/
def roundToNiceNumber (num : ℚ) (significance : ℤ) : ℚ :=
  if num = 0 then 0
  else
    let magnitude : ℚ := (10 : ℚ) ^ (Int.log 10 |num| - significance + 1)
    ((jsRound (num / magnitude) : ℚ)) * magnitude

/-- Models `addToRecent`: insert into the JS `Set` (a no-op when already
present), then evict the oldest entry if the bound is exceeded. -/
def addToRecent (maxRecent : Nat) (signature : String) (s : RState) : RState :=
  let s1 := if signature ∈ s then s else s ++ [signature]
  if s1.length > maxRecent then s1.tail else s1

/-- Models `isRecent(signature) = recentQuestions.has(signature)`. -/
def isRecent (signature : String) (s : RState) : Bool := decide (signature ∈ s)

/-- Models `clearRecentQuestions()`. -/
def clearRecentQuestions (_s : RState) : RState := []

/-- Models `getNumericAnswer(mantissa, suffix)`. -/
def getNumericAnswer (mantissa : ℚ) (suffix : String) : ℚ :=
  if suffix = "K" then mantissa * 1000
  else if suffix = "M" then mantissa * 1000000
  else if suffix = "B" then mantissa * 1000000000
  else mantissa

/-- The outcome of an IEEE double computation that may be non-finite; used
only for the grader's error-percent division. -/
inductive ErrorValue where
  | finite (value : ℚ)
  | posInf
  | negInf
  | nan
deriving DecidableEq, Repr

/-- IEEE division of a finite `a` by a finite `b` (with `b` a `+0` when it
is zero, as for the literal `correctAnswer` values fed to the grader). -/
def divIEEE (a b : ℚ) : ErrorValue :=
  if b = 0 then
    (if a = 0 then ErrorValue.nan else if 0 < a then ErrorValue.posInf else ErrorValue.negInf)
  else ErrorValue.finite (a / b)

/-- Scaling by a positive finite constant (the `* 100` of the grader)
preserves the non-finite markers. -/
def scaleEV : ErrorValue → ℚ → ErrorValue
  | ErrorValue.finite q, k => ErrorValue.finite (q * k)
  | v, _ => v

/-- The ±10% estimate tolerance (`export const TOLERANCE = 0.10`). -/
def TOLERANCE : ℚ := 0.10

/-- The grader's result record. -/
structure CheckResult where
  isCorrect : Bool
  errorPercent : Option ErrorValue
deriving DecidableEq, Repr

/-- Models `checkAnswer(userAnswer, correctAnswer, type)` (identical in both
engine variants). -/
def checkAnswer (userAnswer correctAnswer : ℚ) (type : QuestionType) : CheckResult :=
  if type = QuestionType.accurate then
    let tolerance := max 0.5 (correctAnswer * 0.001)
    { isCorrect := decide (|userAnswer - correctAnswer| ≤ tolerance), errorPercent := none }
  else
    let lower := correctAnswer * (1 - TOLERANCE)
    let upper := correctAnswer * (1 + TOLERANCE)
    let isCorrect := decide (lower ≤ userAnswer ∧ userAnswer ≤ upper)
    let errorPercent := scaleEV (divIEEE |userAnswer - correctAnswer| correctAnswer) 100
    { isCorrect := isCorrect, errorPercent := some errorPercent }

end QGen

namespace QGen

/-! ### Variant 1: `src/questionGenerator.ts` -/

namespace V1

def MAX_RECENT : Nat := 50

def EASY_PERCENTAGES : List ℚ := [5, 10, 15, 20, 25, 30, 50, 75]
def MEDIUM_PERCENTAGES : List ℚ := [3, 7, 8, 12, 15, 17, 18, 22, 24, 28, 33, 35, 40, 45]
def TOUGH_PERCENTAGES : List ℚ :=
  [2.5, 3.5, 4, 6, 7.5, 8.5, 11, 13, 14, 16, 19, 21, 23, 26, 27, 29, 31, 32, 34, 37, 38, 42, 43,
   47, 48]

def EASY_BASES : List ℚ :=
  [100, 200, 400, 500, 800, 1000, 2000, 4000, 5000, 10000, 20000, 50000, 100000]
def MEDIUM_BASES : List ℚ :=
  [1200, 1500, 2400, 3600, 4500, 7500, 8000, 12000, 15000, 18000, 24000, 36000, 45000, 75000,
   120000, 150000, 240000, 450000, 750000, 1200000, 2400000]
def TOUGH_BASES : List ℚ :=
  [1340, 2670, 3890, 4720, 6430, 7860, 9240, 11500, 13700, 16800, 19400, 23600, 28900, 34500,
   41200, 47800, 56300, 67400, 78900, 89500, 123000, 187000, 234000, 345000, 456000, 567000,
   789000, 1230000, 2340000, 3450000, 4560000, 7890000]

/-! Template 1: `percentOfNumber`. Draw slots: 0 base, 1 pct, 2 id. -/

def percentOfNumberBase (difficulty : Difficulty) (r : RNG) : ℚ :=
  match difficulty with
  | Difficulty.easy => randomChoice EASY_BASES 0 (r 0)
  | Difficulty.medium => randomChoice MEDIUM_BASES 0 (r 0)
  | Difficulty.tough => randomChoice TOUGH_BASES 0 (r 0)

def percentOfNumberPct (difficulty : Difficulty) (r : RNG) : ℚ :=
  match difficulty with
  | Difficulty.easy => randomChoice EASY_PERCENTAGES 0 (r 1)
  | Difficulty.medium => randomChoice MEDIUM_PERCENTAGES 0 (r 1)
  | Difficulty.tough => randomChoice TOUGH_PERCENTAGES 0 (r 1)

def percentOfNumberSig (difficulty : Difficulty) (r : RNG) : String :=
  "pct_" ++ toString (percentOfNumberPct difficulty r) ++ "_"
    ++ toString (percentOfNumberBase difficulty r)

def percentOfNumber (difficulty : Difficulty) (type : QuestionType) (r : RNG) (s : RState) :
    Option Question × RState :=
  let base := percentOfNumberBase difficulty r
  let pct := percentOfNumberPct difficulty r
  let signature := percentOfNumberSig difficulty r
  if isRecent signature s then (none, s)
  else
    let s2 := addToRecent MAX_RECENT signature s
    let correctAnswer := base * pct / 100
    let prompt :=
      if type = QuestionType.estimate then
        "Estimate " ++ toString pct ++ "% of " ++ formatNumber base
      else
        "What is " ++ toString pct ++ "% of " ++ formatNumber base ++ "?"
    (some { id := generateId (r 2), type := type, difficulty := difficulty, prompt := prompt,
            correctAnswer := correctAnswer,
            meta := some { baseValue := base, percent := some pct, secondValue := none,
                           operation := "percent" } }, s2)

/-! Template 2: `reversePercentage`. Draw slots: 0 whole, 1 pct, 2 id. -/

def reversePercentageWhole (difficulty : Difficulty) (r : RNG) : ℚ :=
  match difficulty with
  | Difficulty.easy =>
      randomChoice [1000, 2000, 4000, 5000, 10000, 20000, 50000, 100000] 0 (r 0)
  | Difficulty.medium =>
      randomChoice [1500, 2400, 3600, 4500, 7500, 12000, 15000, 24000, 36000, 45000, 75000,
        120000] 0 (r 0)
  | Difficulty.tough =>
      randomChoice [1340, 2670, 4720, 7860, 11500, 16800, 23600, 34500, 47800, 67400, 89500,
        123000, 234000] 0 (r 0)

def reversePercentagePct (difficulty : Difficulty) (r : RNG) : ℚ :=
  match difficulty with
  | Difficulty.easy => randomChoice [10, 20, 25, 50] 0 (r 1)
  | Difficulty.medium => randomChoice [8, 12, 15, 20, 24, 30, 40] 0 (r 1)
  | Difficulty.tough => randomChoice [6, 8, 12, 15, 18, 22, 35] 0 (r 1)

def reversePercentageSig (difficulty : Difficulty) (r : RNG) : String :=
  let whole := reversePercentageWhole difficulty r
  let pct := reversePercentagePct difficulty r
  "rev_pct_" ++ toString (whole * pct / 100) ++ "_" ++ toString pct

def reversePercentage (difficulty : Difficulty) (type : QuestionType) (r : RNG) (s : RState) :
    Option Question × RState :=
  let whole := reversePercentageWhole difficulty r
  let pct := reversePercentagePct difficulty r
  let part := whole * pct / 100
  let signature := reversePercentageSig difficulty r
  if isRecent signature s then (none, s)
  else
    let s2 := addToRecent MAX_RECENT signature s
    let prompt :=
      if type = QuestionType.estimate then
        formatNumber part ++ " is " ++ toString pct ++ "% of what number? Estimate the total."
      else
        formatNumber part ++ " represents " ++ toString pct ++ "% of a total. What is the total?"
    (some { id := generateId (r 2), type := type, difficulty := difficulty, prompt := prompt,
            correctAnswer := whole,
            meta := some { baseValue := part, percent := some pct, secondValue := none,
                           operation := "reverse_percent" } }, s2)

/-! Template 3: `multiplication`. Draw slots: 0 a, 1 b, 2 id. -/

def multiplicationA (difficulty : Difficulty) (r : RNG) : ℚ :=
  match difficulty with
  | Difficulty.easy =>
      randomChoice [12, 15, 18, 24, 25, 30, 35, 40, 45, 50, 60, 75, 80, 90, 125, 150, 200, 250]
        0 (r 0)
  | Difficulty.medium =>
      randomChoice [35, 45, 55, 65, 75, 85, 95, 120, 140, 160, 180, 220, 250, 280, 320, 350,
        450, 550, 650, 750, 850] 0 (r 0)
  | Difficulty.tough =>
      randomChoice [123, 147, 168, 189, 234, 267, 289, 312, 345, 378, 423, 456, 489, 534, 567,
        612, 678, 723, 789, 834, 867, 912, 945, 978] 0 (r 0)

def multiplicationB (difficulty : Difficulty) (r : RNG) : ℚ :=
  match difficulty with
  | Difficulty.easy => randomChoice [2, 3, 4, 5, 6, 8, 10, 12] 0 (r 1)
  | Difficulty.medium => randomChoice [6, 7, 8, 9, 11, 12, 13, 14, 15, 16, 18] 0 (r 1)
  | Difficulty.tough =>
      randomChoice [7, 8, 9, 11, 12, 13, 14, 15, 16, 17, 18, 19, 21, 22, 23, 24, 25] 0 (r 1)

def multiplicationSig (difficulty : Difficulty) (r : RNG) : String :=
  "mult_" ++ toString (multiplicationA difficulty r) ++ "_"
    ++ toString (multiplicationB difficulty r)

def multiplication (difficulty : Difficulty) (type : QuestionType) (r : RNG) (s : RState) :
    Option Question × RState :=
  let a := multiplicationA difficulty r
  let b := multiplicationB difficulty r
  let signature := multiplicationSig difficulty r
  if isRecent signature s then (none, s)
  else
    let s2 := addToRecent MAX_RECENT signature s
    let prompt :=
      if type = QuestionType.estimate then
        "Estimate " ++ formatNumber a ++ " x " ++ toString b
      else
        "What is " ++ formatNumber a ++ " x " ++ toString b ++ "?"
    (some { id := generateId (r 2), type := type, difficulty := difficulty, prompt := prompt,
            correctAnswer := a * b,
            meta := some { baseValue := a, percent := none, secondValue := some b,
                           operation := "multiplication" } }, s2)

/-! Template 4: `division`. Draw slots: 0 divisor, 1 quotient, 2 id. -/

def divisionDivisor (difficulty : Difficulty) (r : RNG) : ℚ :=
  match difficulty with
  | Difficulty.easy => randomChoice [2, 4, 5, 8, 10, 20, 25, 50] 0 (r 0)
  | Difficulty.medium => randomChoice [3, 6, 7, 8, 9, 12, 15, 16, 18, 24] 0 (r 0)
  | Difficulty.tough =>
      randomChoice [7, 8, 9, 11, 12, 13, 14, 15, 16, 17, 18, 19, 21, 23] 0 (r 0)

def divisionQuotient (difficulty : Difficulty) (r : RNG) : ℚ :=
  match difficulty with
  | Difficulty.easy =>
      randomChoice [12, 15, 18, 24, 25, 30, 35, 40, 45, 50, 60, 75, 80, 100, 120, 150, 200, 250,
        400, 500] 0 (r 1)
  | Difficulty.medium =>
      randomChoice [45, 65, 85, 95, 120, 145, 165, 185, 220, 280, 320, 380, 420, 480, 520, 580,
        620, 720, 850, 950] 0 (r 1)
  | Difficulty.tough =>
      randomChoice [123, 156, 189, 234, 267, 312, 345, 378, 423, 456, 512, 567, 623, 678, 734,
        789, 845, 912, 978] 0 (r 1)

def divisionSig (difficulty : Difficulty) (r : RNG) : String :=
  let divisor := divisionDivisor difficulty r
  let quotient := divisionQuotient difficulty r
  "div_" ++ toString (divisor * quotient) ++ "_" ++ toString divisor

def division (difficulty : Difficulty) (type : QuestionType) (r : RNG) (s : RState) :
    Option Question × RState :=
  let divisor := divisionDivisor difficulty r
  let quotient := divisionQuotient difficulty r
  let base := divisor * quotient
  let signature := divisionSig difficulty r
  if isRecent signature s then (none, s)
  else
    let s2 := addToRecent MAX_RECENT signature s
    let prompt :=
      if type = QuestionType.estimate then
        "Estimate " ++ formatNumber base ++ " / " ++ toString divisor
      else
        "What is " ++ formatNumber base ++ " / " ++ toString divisor ++ "?"
    (some { id := generateId (r 2), type := type, difficulty := difficulty, prompt := prompt,
            correctAnswer := quotient,
            meta := some { baseValue := base, percent := none, secondValue := some divisor,
                           operation := "division" } }, s2)

/-! Template 5: `profitMargin`. Draw slots: 0 context, 1 revenue, 2 margin, 3 id. -/

def profitMarginRevenue (difficulty : Difficulty) (r : RNG) : ℚ :=
  match difficulty with
  | Difficulty.easy =>
      randomChoice [100000, 200000, 400000, 500000, 800000, 1000000, 2000000, 5000000] 0 (r 1)
  | Difficulty.medium =>
      randomChoice [1200000, 1500000, 2400000, 3600000, 4500000, 7500000, 12000000, 15000000,
        24000000, 36000000, 45000000] 0 (r 1)
  | Difficulty.tough =>
      roundToNiceNumber ((randomInt 10000000 500000000 (r 1) : ℕ) : ℚ) 3

def profitMarginPct (difficulty : Difficulty) (r : RNG) : ℚ :=
  match difficulty with
  | Difficulty.easy => randomChoice [10, 15, 20, 25, 30, 40, 50] 0 (r 2)
  | Difficulty.medium => randomChoice [8, 12, 15, 18, 22, 24, 28, 32, 35] 0 (r 2)
  | Difficulty.tough =>
      randomChoice [4.5, 6, 7.5, 8.5, 11, 13, 14.5, 16, 17.5, 19, 21, 23.5] 0 (r 2)

def profitMarginSig (difficulty : Difficulty) (r : RNG) : String :=
  "margin_" ++ toString (profitMarginRevenue difficulty r) ++ "_"
    ++ toString (profitMarginPct difficulty r)

def profitMargin (difficulty : Difficulty) (type : QuestionType) (r : RNG) (s : RState) :
    Option Question × RState :=
  let context :=
    randomChoice ["company", "product line", "division", "business unit", "project"] "" (r 0)
  let revenue := profitMarginRevenue difficulty r
  let marginPct := profitMarginPct difficulty r
  let signature := profitMarginSig difficulty r
  if isRecent signature s then (none, s)
  else
    let s2 := addToRecent MAX_RECENT signature s
    let correctAnswer := revenue * marginPct / 100
    let prompt :=
      if type = QuestionType.estimate then
        "A " ++ context ++ " has " ++ formatNumber revenue ++ " in revenue with a "
          ++ toString marginPct ++ "% profit margin. Estimate the profit."
      else
        "A " ++ context ++ " generates $" ++ formatNumber revenue ++ " in revenue with a "
          ++ toString marginPct ++ "% profit margin. What is the profit?"
    (some { id := generateId (r 3), type := type, difficulty := difficulty, prompt := prompt,
            correctAnswer := correctAnswer,
            meta := some { baseValue := revenue, percent := some marginPct, secondValue := none,
                           operation := "margin" } }, s2)

/-! Template 6: `costStructure`. Draw slots: 0 revenue, 1 costPct, 2 coin, 3 id.
The ask-for-profit coin is NOT recorded in `meta`. -/

def costStructureRevenue (difficulty : Difficulty) (r : RNG) : ℚ :=
  match difficulty with
  | Difficulty.easy =>
      randomChoice [100000, 200000, 400000, 500000, 800000, 1000000, 2000000] 0 (r 0)
  | Difficulty.medium =>
      randomChoice [1500000, 2400000, 3600000, 4500000, 7500000, 12000000, 24000000] 0 (r 0)
  | Difficulty.tough =>
      roundToNiceNumber ((randomInt 50000000 800000000 (r 0) : ℕ) : ℚ) 3

def costStructurePct (difficulty : Difficulty) (r : RNG) : ℚ :=
  match difficulty with
  | Difficulty.easy => randomChoice [50, 60, 70, 75, 80] 0 (r 1)
  | Difficulty.medium => randomChoice [55, 62, 65, 68, 72, 78, 82, 85] 0 (r 1)
  | Difficulty.tough => randomChoice [57, 63, 67, 71, 73, 76, 79, 81, 84, 87] 0 (r 1)

def costStructureSig (difficulty : Difficulty) (r : RNG) : String :=
  "cost_" ++ toString (costStructureRevenue difficulty r) ++ "_"
    ++ toString (costStructurePct difficulty r)

def costStructure (difficulty : Difficulty) (type : QuestionType) (r : RNG) (s : RState) :
    Option Question × RState :=
  let revenue := costStructureRevenue difficulty r
  let costPct := costStructurePct difficulty r
  let signature := costStructureSig difficulty r
  if isRecent signature s then (none, s)
  else
    let s2 := addToRecent MAX_RECENT signature s
    let askForProfit := coinFlip (r 2)
    let correctAnswer :=
      if askForProfit then revenue * (100 - costPct) / 100 else revenue * costPct / 100
    let metric := if askForProfit then "profit" else "total costs"
    let prompt :=
      if type = QuestionType.estimate then
        "Revenue is $" ++ formatNumber revenue ++ " and costs are " ++ toString costPct
          ++ "% of revenue. Estimate the " ++ metric ++ "."
      else
        "Revenue is $" ++ formatNumber revenue ++ " with costs at " ++ toString costPct
          ++ "% of revenue. What is the " ++ metric ++ "?"
    (some { id := generateId (r 3), type := type, difficulty := difficulty, prompt := prompt,
            correctAnswer := correctAnswer,
            meta := some { baseValue := revenue, percent := some costPct, secondValue := none,
                           operation := "cost_structure" } }, s2)

/-! Template 7: `priceChange`. Draw slots: 0 coin, 1 price, 2 changePct, 3 id. -/

def priceChangePrice (difficulty : Difficulty) (r : RNG) : ℚ :=
  match difficulty with
  | Difficulty.easy =>
      randomChoice [50, 80, 100, 120, 150, 200, 250, 400, 500, 800, 1000, 2000, 5000] 0 (r 1)
  | Difficulty.medium =>
      randomChoice [75, 85, 95, 125, 145, 175, 225, 275, 350, 450, 550, 750, 850, 1250, 1750,
        2500, 3500, 4500, 7500] 0 (r 1)
  | Difficulty.tough =>
      randomChoice [67, 83, 97, 123, 147, 178, 234, 289, 347, 423, 567, 678, 789, 892, 1230,
        1470, 1890, 2340, 3450, 4560, 5670, 7890] 0 (r 1)

def priceChangePct (difficulty : Difficulty) (r : RNG) : ℚ :=
  match difficulty with
  | Difficulty.easy => randomChoice [5, 10, 15, 20, 25, 50] 0 (r 2)
  | Difficulty.medium => randomChoice [8, 12, 15, 18, 22, 25, 30, 35] 0 (r 2)
  | Difficulty.tough =>
      randomChoice [6, 8.5, 11, 13, 15.5, 17, 19, 21.5, 23, 27, 32] 0 (r 2)

def priceChangeSig (difficulty : Difficulty) (r : RNG) : String :=
  "price_" ++ toString (priceChangePrice difficulty r) ++ "_"
    ++ toString (priceChangePct difficulty r) ++ "_" ++ toString (coinFlip (r 0))

def priceChange (difficulty : Difficulty) (type : QuestionType) (r : RNG) (s : RState) :
    Option Question × RState :=
  let isIncrease := coinFlip (r 0)
  let price := priceChangePrice difficulty r
  let changePct := priceChangePct difficulty r
  let signature := priceChangeSig difficulty r
  if isRecent signature s then (none, s)
  else
    let s2 := addToRecent MAX_RECENT signature s
    let changeAmount := price * changePct / 100
    let correctAnswer := if isIncrease then price + changeAmount else price - changeAmount
    let action := if isIncrease then "increases" else "decreases"
    let prompt :=
      if type = QuestionType.estimate then
        "A price of $" ++ formatNumber price ++ " " ++ action ++ " by " ++ toString changePct
          ++ "%. Estimate the new price."
      else
        "A product priced at $" ++ formatNumber price ++ " " ++ action ++ " by "
          ++ toString changePct ++ "%. What is the new price?"
    (some { id := generateId (r 3), type := type, difficulty := difficulty, prompt := prompt,
            correctAnswer := correctAnswer,
            meta := some { baseValue := price, percent := some changePct, secondValue := none,
                           operation := if isIncrease then "increase" else "decrease" } }, s2)

/-! Template 8: `perUnitCalculation`.
Draw slots: 0 items, 1 metrics, 2 units, 3 perUnit, 4 coin, 5 id. -/

def perUnitUnits (difficulty : Difficulty) (r : RNG) : ℚ :=
  match difficulty with
  | Difficulty.easy => randomChoice [10, 20, 25, 40, 50, 100, 200, 250, 500, 1000] 0 (r 2)
  | Difficulty.medium =>
      randomChoice [24, 36, 48, 72, 96, 120, 150, 180, 240, 360, 480, 720, 1200, 1500, 2400]
        0 (r 2)
  | Difficulty.tough =>
      randomChoice [137, 189, 234, 312, 456, 567, 678, 789, 892, 1230, 1560, 1890, 2340, 3450,
        4560] 0 (r 2)

def perUnitPerUnit (difficulty : Difficulty) (r : RNG) : ℚ :=
  match difficulty with
  | Difficulty.easy =>
      randomChoice [50, 80, 100, 120, 150, 200, 250, 400, 500, 800, 1000] 0 (r 3)
  | Difficulty.medium =>
      randomChoice [35, 45, 65, 85, 95, 125, 175, 225, 275, 350, 450, 650, 850] 0 (r 3)
  | Difficulty.tough =>
      randomChoice [47, 63, 78, 89, 97, 123, 147, 178, 234, 289, 347, 423, 567, 678] 0 (r 3)

def perUnitCalculationSig (difficulty : Difficulty) (r : RNG) : String :=
  let units := perUnitUnits difficulty r
  let perUnit := perUnitPerUnit difficulty r
  "perunit_" ++ toString (units * perUnit) ++ "_" ++ toString units ++ "_"
    ++ toString (coinFlip (r 4))

def perUnitCalculation (difficulty : Difficulty) (type : QuestionType) (r : RNG) (s : RState) :
    Option Question × RState :=
  let items :=
    randomChoice ["units", "customers", "employees", "stores", "products", "subscribers",
      "users"] "" (r 0)
  let metrics := randomChoice ["revenue", "profit", "cost", "sales"] "" (r 1)
  let units := perUnitUnits difficulty r
  let perUnit := perUnitPerUnit difficulty r
  let total := units * perUnit
  let askForPerUnit := coinFlip (r 4)
  let signature := perUnitCalculationSig difficulty r
  if isRecent signature s then (none, s)
  else
    let s2 := addToRecent MAX_RECENT signature s
    if askForPerUnit then
      let prompt :=
        if type = QuestionType.estimate then
          "Total " ++ metrics ++ " is $" ++ formatNumber total ++ " from " ++ formatNumber units
            ++ " " ++ items ++ ". Estimate " ++ metrics ++ " per " ++ items.dropRight 1 ++ "."
        else
          "Total " ++ metrics ++ " of $" ++ formatNumber total ++ " comes from "
            ++ formatNumber units ++ " " ++ items ++ ". What is the " ++ metrics ++ " per "
            ++ items.dropRight 1 ++ "?"
      (some { id := generateId (r 5), type := type, difficulty := difficulty, prompt := prompt,
              correctAnswer := perUnit,
              meta := some { baseValue := total, percent := none, secondValue := some units,
                             operation := "per_unit" } }, s2)
    else
      let prompt :=
        if type = QuestionType.estimate then
          "With " ++ formatNumber units ++ " " ++ items ++ " and $" ++ formatNumber perUnit
            ++ " " ++ metrics ++ " per " ++ items.dropRight 1 ++ ", estimate total " ++ metrics
            ++ "."
        else
          "A business has " ++ formatNumber units ++ " " ++ items ++ " generating $"
            ++ formatNumber perUnit ++ " " ++ metrics ++ " each. What is the total " ++ metrics
            ++ "?"
      (some { id := generateId (r 5), type := type, difficulty := difficulty, prompt := prompt,
              correctAnswer := total,
              meta := some { baseValue := perUnit, percent := none, secondValue := some units,
                             operation := "total_from_unit" } }, s2)

/-! Template 9: `marketShare`. Draw slots: 0 marketSize, 1 sharePct, 2 industry, 3 id. -/

def marketShareSize (difficulty : Difficulty) (r : RNG) : ℚ :=
  match difficulty with
  | Difficulty.easy =>
      randomChoice [10000000, 20000000, 50000000, 100000000, 200000000, 500000000, 1000000000]
        0 (r 0)
  | Difficulty.medium =>
      randomChoice [15000000, 24000000, 36000000, 45000000, 75000000, 120000000, 180000000,
        240000000, 360000000, 450000000, 750000000] 0 (r 0)
  | Difficulty.tough =>
      roundToNiceNumber ((randomInt 100000000 10000000000 (r 0) : ℕ) : ℚ) 2

def marketSharePct (difficulty : Difficulty) (r : RNG) : ℚ :=
  match difficulty with
  | Difficulty.easy => randomChoice [5, 10, 15, 20, 25, 30, 40, 50] 0 (r 1)
  | Difficulty.medium => randomChoice [3, 7, 8, 12, 15, 18, 22, 28, 35] 0 (r 1)
  | Difficulty.tough =>
      randomChoice [2.5, 4.5, 6, 7.5, 8.5, 11, 13.5, 16, 18.5, 21, 23.5, 27] 0 (r 1)

def marketShareSig (difficulty : Difficulty) (r : RNG) : String :=
  "market_" ++ toString (marketShareSize difficulty r) ++ "_"
    ++ toString (marketSharePct difficulty r)

def marketShare (difficulty : Difficulty) (type : QuestionType) (r : RNG) (s : RState) :
    Option Question × RState :=
  let marketSize := marketShareSize difficulty r
  let sharePct := marketSharePct difficulty r
  let signature := marketShareSig difficulty r
  if isRecent signature s then (none, s)
  else
    let s2 := addToRecent MAX_RECENT signature s
    let correctAnswer := marketSize * sharePct / 100
    let industry :=
      randomChoice ["software", "retail", "healthcare", "automotive", "consumer goods",
        "financial services"] "" (r 2)
    let prompt :=
      if type = QuestionType.estimate then
        "The " ++ industry ++ " market is $" ++ formatNumber marketSize ++ ". A company with "
          ++ toString sharePct ++ "% market share has what revenue?"
      else
        "In a $" ++ formatNumber marketSize ++ " " ++ industry
          ++ " market, what is the revenue of a company with " ++ toString sharePct
          ++ "% market share?"
    (some { id := generateId (r 3), type := type, difficulty := difficulty, prompt := prompt,
            correctAnswer := correctAnswer,
            meta := some { baseValue := marketSize, percent := some sharePct,
                           secondValue := none, operation := "market_share" } }, s2)

/-! Template 10: `growthCalculation`. Draw slots: 0 base, 1 growthPct, 2 metric, 3 id. -/

def growthCalculationBase (difficulty : Difficulty) (r : RNG) : ℚ :=
  match difficulty with
  | Difficulty.easy =>
      randomChoice [100000, 200000, 400000, 500000, 1000000, 2000000, 5000000, 10000000]
        0 (r 0)
  | Difficulty.medium =>
      randomChoice [1500000, 2400000, 3600000, 4500000, 7500000, 12000000, 18000000, 24000000,
        36000000, 45000000] 0 (r 0)
  | Difficulty.tough =>
      roundToNiceNumber ((randomInt 10000000 500000000 (r 0) : ℕ) : ℚ) 2

def growthCalculationPct (difficulty : Difficulty) (r : RNG) : ℚ :=
  match difficulty with
  | Difficulty.easy => randomChoice [5, 10, 15, 20, 25, 50, 100] 0 (r 1)
  | Difficulty.medium => randomChoice [8, 12, 15, 18, 22, 25, 30, 35, 40, 45] 0 (r 1)
  | Difficulty.tough =>
      randomChoice [6, 8.5, 11, 13.5, 16, 18.5, 21, 24.5, 27, 32, 37, 43] 0 (r 1)

def growthCalculationSig (difficulty : Difficulty) (r : RNG) : String :=
  "growth_" ++ toString (growthCalculationBase difficulty r) ++ "_"
    ++ toString (growthCalculationPct difficulty r)

def growthCalculation (difficulty : Difficulty) (type : QuestionType) (r : RNG) (s : RState) :
    Option Question × RState :=
  let baseValue := growthCalculationBase difficulty r
  let growthPct := growthCalculationPct difficulty r
  let signature := growthCalculationSig difficulty r
  if isRecent signature s then (none, s)
  else
    let s2 := addToRecent MAX_RECENT signature s
    let correctAnswer := baseValue * (1 + growthPct / 100)
    let metric := randomChoice ["revenue", "sales", "profit", "subscribers", "users"] "" (r 2)
    let prompt :=
      if type = QuestionType.estimate then
        "Last year the " ++ metric ++ " was $" ++ formatNumber baseValue ++ ". With "
          ++ toString growthPct ++ "% growth, estimate this year."
      else
        "A company had $" ++ formatNumber baseValue ++ " in " ++ metric ++ " last year. After "
          ++ toString growthPct ++ "% growth, what is this year?"
    (some { id := generateId (r 3), type := type, difficulty := difficulty, prompt := prompt,
            correctAnswer := correctAnswer,
            meta := some { baseValue := baseValue, percent := some growthPct,
                           secondValue := none, operation := "growth" } }, s2)

/-! Template 11: `breakEvenTarget`. Draw slots: 0 fixedCosts, 1 price, 2 factor, 3 id. -/

def breakEvenFixedCosts (difficulty : Difficulty) (r : RNG) : ℚ :=
  match difficulty with
  | Difficulty.easy => randomChoice [10000, 20000, 50000, 100000, 200000, 500000] 0 (r 0)
  | Difficulty.medium =>
      randomChoice [75000, 120000, 180000, 240000, 360000, 450000, 720000] 0 (r 0)
  | Difficulty.tough =>
      randomChoice [89000, 134000, 178000, 234000, 312000, 456000, 567000, 789000] 0 (r 0)

def breakEvenPrice (difficulty : Difficulty) (r : RNG) : ℚ :=
  match difficulty with
  | Difficulty.easy => randomChoice [50, 100, 200, 250, 500] 0 (r 1)
  | Difficulty.medium => randomChoice [45, 75, 95, 125, 175, 225, 350] 0 (r 1)
  | Difficulty.tough => randomChoice [47, 68, 89, 123, 156, 189, 234, 289] 0 (r 1)

def breakEvenVariableCost (difficulty : Difficulty) (r : RNG) : ℚ :=
  let price := breakEvenPrice difficulty r
  match difficulty with
  | Difficulty.easy => ((jsRound (price * randomChoice [0.4, 0.5, 0.6] 0 (r 2)) : ℤ) : ℚ)
  | Difficulty.medium =>
      ((jsRound (price * randomChoice [0.45, 0.55, 0.65, 0.7] 0 (r 2)) : ℤ) : ℚ)
  | Difficulty.tough =>
      ((jsRound (price * randomChoice [0.52, 0.58, 0.63, 0.68, 0.72] 0 (r 2)) : ℤ) : ℚ)

def breakEvenTargetSig (difficulty : Difficulty) (r : RNG) : String :=
  "breakeven_" ++ toString (breakEvenFixedCosts difficulty r) ++ "_"
    ++ toString (breakEvenPrice difficulty r) ++ "_"
    ++ toString (breakEvenVariableCost difficulty r)

def breakEvenTarget (difficulty : Difficulty) (type : QuestionType) (r : RNG) (s : RState) :
    Option Question × RState :=
  let fixedCosts := breakEvenFixedCosts difficulty r
  let pricePerUnit := breakEvenPrice difficulty r
  let variableCostPerUnit := breakEvenVariableCost difficulty r
  let contribution := pricePerUnit - variableCostPerUnit
  let breakEvenUnits : ℚ := ((⌈fixedCosts / contribution⌉ : ℤ) : ℚ)
  let signature := breakEvenTargetSig difficulty r
  if isRecent signature s then (none, s)
  else
    let s2 := addToRecent MAX_RECENT signature s
    let prompt :=
      if type = QuestionType.estimate then
        "Fixed costs: $" ++ formatNumber fixedCosts ++ ". Price: $" ++ toString pricePerUnit
          ++ "/unit. Variable cost: $" ++ toString variableCostPerUnit
          ++ "/unit. Estimate break-even units."
      else
        "With $" ++ formatNumber fixedCosts ++ " fixed costs, $" ++ toString pricePerUnit
          ++ " price per unit, and $" ++ toString variableCostPerUnit
          ++ " variable cost per unit, how many units to break even?"
    (some { id := generateId (r 3), type := type, difficulty := difficulty, prompt := prompt,
            correctAnswer := breakEvenUnits,
            meta := some { baseValue := fixedCosts, percent := none,
                           secondValue := some contribution, operation := "break_even" } }, s2)

/-! Template 12: `compoundPercentage` (refuses `easy`).
Draw slots: 0 base, 1 pct1, 2 pct2, 3 operation, 4 id.
`meta` records only `baseValue` and `pct1`. -/

def compoundPercentageBase (difficulty : Difficulty) (r : RNG) : ℚ :=
  match difficulty with
  | Difficulty.easy => 0
  | Difficulty.medium => randomChoice [10000, 20000, 50000, 100000, 200000, 500000] 0 (r 0)
  | Difficulty.tough =>
      randomChoice [15000, 24000, 36000, 45000, 75000, 120000, 180000, 240000] 0 (r 0)

def compoundPercentagePct1 (difficulty : Difficulty) (r : RNG) : ℚ :=
  match difficulty with
  | Difficulty.easy => 0
  | Difficulty.medium => randomChoice [10, 20, 25] 0 (r 1)
  | Difficulty.tough => randomChoice [8, 12, 15, 18, 20, 25] 0 (r 1)

def compoundPercentagePct2 (difficulty : Difficulty) (r : RNG) : ℚ :=
  match difficulty with
  | Difficulty.easy => 0
  | Difficulty.medium => randomChoice [10, 20, 25] 0 (r 2)
  | Difficulty.tough => randomChoice [5, 8, 10, 12, 15, 20] 0 (r 2)

def compoundPercentageSig (difficulty : Difficulty) (r : RNG) : String :=
  "compound_" ++ toString (compoundPercentageBase difficulty r) ++ "_"
    ++ toString (compoundPercentagePct1 difficulty r) ++ "_"
    ++ toString (compoundPercentagePct2 difficulty r)

def compoundPercentage (difficulty : Difficulty) (type : QuestionType) (r : RNG) (s : RState) :
    Option Question × RState :=
  if difficulty = Difficulty.easy then (none, s)
  else
    let base := compoundPercentageBase difficulty r
    let pct1 := compoundPercentagePct1 difficulty r
    let pct2 := compoundPercentagePct2 difficulty r
    let signature := compoundPercentageSig difficulty r
    if isRecent signature s then (none, s)
    else
      let s2 := addToRecent MAX_RECENT signature s
      let operations : List (String × ℚ) :=
        [("increases by " ++ toString pct1 ++ "% then by another " ++ toString pct2 ++ "%",
          (1 + pct1 / 100) * (1 + pct2 / 100)),
         ("increases by " ++ toString pct1 ++ "% then decreases by " ++ toString pct2 ++ "%",
          (1 + pct1 / 100) * (1 - pct2 / 100)),
         ("decreases by " ++ toString pct1 ++ "% then increases by " ++ toString pct2 ++ "%",
          (1 - pct1 / 100) * (1 + pct2 / 100))]
      let op := randomChoice operations ("", 1) (r 3)
      let correctAnswer := base * op.2
      let prompt :=
        if type = QuestionType.estimate then
          "Starting value: $" ++ formatNumber base ++ ". It " ++ op.1
            ++ ". Estimate the final value."
        else
          "A value of $" ++ formatNumber base ++ " " ++ op.1 ++ ". What is the final value?"
      (some { id := generateId (r 4), type := type, difficulty := difficulty, prompt := prompt,
              correctAnswer := correctAnswer,
              meta := some { baseValue := base, percent := some pct1, secondValue := none,
                             operation := "compound" } }, s2)

/-! Template 13: `weightedAverage` (refuses `easy`).
Draw slots: 0 value1, 1 weight1, 2 value2, 3 context, 4 id.
`meta` records only the two values, not the weight. -/

def weightedAverageValue1 (difficulty : Difficulty) (r : RNG) : ℚ :=
  match difficulty with
  | Difficulty.easy => 0
  | Difficulty.medium => randomChoice [40, 50, 60, 80, 100, 120] 0 (r 0)
  | Difficulty.tough => randomChoice [45, 67, 78, 89, 95, 112, 134, 156] 0 (r 0)

def weightedAverageWeight1 (difficulty : Difficulty) (r : RNG) : ℚ :=
  match difficulty with
  | Difficulty.easy => 0
  | Difficulty.medium => randomChoice [20, 30, 40, 50, 60] 0 (r 1)
  | Difficulty.tough => randomChoice [15, 22, 28, 35, 42, 48, 55, 62] 0 (r 1)

def weightedAverageValue2 (difficulty : Difficulty) (r : RNG) : ℚ :=
  match difficulty with
  | Difficulty.easy => 0
  | Difficulty.medium => randomChoice [80, 100, 120, 150, 200] 0 (r 2)
  | Difficulty.tough => randomChoice [89, 112, 134, 167, 189, 212, 234, 267] 0 (r 2)

def weightedAverageSig (difficulty : Difficulty) (r : RNG) : String :=
  "wavg_" ++ toString (weightedAverageValue1 difficulty r) ++ "_"
    ++ toString (weightedAverageWeight1 difficulty r) ++ "_"
    ++ toString (weightedAverageValue2 difficulty r)

def weightedAverage (difficulty : Difficulty) (type : QuestionType) (r : RNG) (s : RState) :
    Option Question × RState :=
  if difficulty = Difficulty.easy then (none, s)
  else
    let value1 := weightedAverageValue1 difficulty r
    let weight1 := weightedAverageWeight1 difficulty r
    let value2 := weightedAverageValue2 difficulty r
    let weight2 := 100 - weight1
    let signature := weightedAverageSig difficulty r
    if isRecent signature s then (none, s)
    else
      let s2 := addToRecent MAX_RECENT signature s
      let correctAnswer := (value1 * weight1 + value2 * weight2) / 100
      let context := randomChoice ["products", "regions", "segments", "divisions"] "" (r 3)
      let prompt :=
        if type = QuestionType.estimate then
          "Two " ++ context ++ ": one at $" ++ toString value1 ++ " (" ++ toString weight1
            ++ "% of sales), another at $" ++ toString value2 ++ " (" ++ toString weight2
            ++ "% of sales). Estimate the weighted average price."
        else
          "Group A sells at $" ++ toString value1 ++ " (" ++ toString weight1
            ++ "% of volume). Group B sells at $" ++ toString value2 ++ " (" ++ toString weight2
            ++ "% of volume). What is the weighted average price?"
      (some { id := generateId (r 4), type := type, difficulty := difficulty, prompt := prompt,
              correctAnswer := correctAnswer,
              meta := some { baseValue := value1, percent := none, secondValue := some value2,
                             operation := "weighted_avg" } }, s2)

/-! Template 14: `largeNumberEstimate` (refuses `(accurate, easy)`).
Draw slots: 0 base, 1 pct, 2 context, 3 id. -/

def largeNumberBase (difficulty : Difficulty) (r : RNG) : ℚ :=
  match difficulty with
  | Difficulty.easy =>
      randomChoice [100000000, 200000000, 500000000, 1000000000, 2000000000, 5000000000]
        0 (r 0)
  | Difficulty.medium =>
      roundToNiceNumber ((randomInt 1000000000 50000000000 (r 0) : ℕ) : ℚ) 2
  | Difficulty.tough =>
      roundToNiceNumber ((randomInt 10000000000 500000000000 (r 0) : ℕ) : ℚ) 2

def largeNumberPct (difficulty : Difficulty) (r : RNG) : ℚ :=
  match difficulty with
  | Difficulty.easy => randomChoice [5, 10, 20, 25, 50] 0 (r 1)
  | Difficulty.medium => randomChoice [3, 5, 8, 10, 12, 15, 20, 25] 0 (r 1)
  | Difficulty.tough =>
      randomChoice [2, 3.5, 4, 5.5, 7, 8.5, 11, 13, 15, 17.5, 19, 22] 0 (r 1)

def largeNumberEstimateSig (difficulty : Difficulty) (r : RNG) : String :=
  "large_" ++ toString (largeNumberBase difficulty r) ++ "_"
    ++ toString (largeNumberPct difficulty r)

def largeNumberEstimate (difficulty : Difficulty) (type : QuestionType) (r : RNG) (s : RState) :
    Option Question × RState :=
  if type = QuestionType.accurate ∧ difficulty = Difficulty.easy then (none, s)
  else
    let base := largeNumberBase difficulty r
    let pct := largeNumberPct difficulty r
    let signature := largeNumberEstimateSig difficulty r
    if isRecent signature s then (none, s)
    else
      let s2 := addToRecent MAX_RECENT signature s
      let correctAnswer := base * pct / 100
      let context :=
        randomChoice ["global market", "company valuation", "annual budget",
          "total addressable market", "GDP contribution"] "" (r 2)
      let verb := if type = QuestionType.estimate then "Estimate" else "Calculate"
      let prompt := "The " ++ context ++ " is $" ++ formatNumber base ++ ". " ++ verb ++ " "
        ++ toString pct ++ "% of that value."
      (some { id := generateId (r 3), type := type, difficulty := difficulty, prompt := prompt,
              correctAnswer := correctAnswer,
              meta := some { baseValue := base, percent := some pct, secondValue := none,
                             operation := "large_percent" } }, s2)

/-! Template 15: `multiYearGrowth` (answers only `tough`).
Draw slots: 0 base, 1 annualGrowth, 2 years, 3 id.
`meta` records only the base and the annual growth, not the year count. -/

def multiYearGrowthBase (r : RNG) : ℚ :=
  randomChoice [10000000, 20000000, 50000000, 100000000, 200000000] 0 (r 0)

def multiYearGrowthPct (r : RNG) : ℚ := randomChoice [10, 15, 20, 25] 0 (r 1)

def multiYearGrowthYears (r : RNG) : ℕ := randomChoice [2, 3] 0 (r 2)

def multiYearGrowthSig (r : RNG) : String :=
  "cagr_" ++ toString (multiYearGrowthBase r) ++ "_" ++ toString (multiYearGrowthPct r) ++ "_"
    ++ toString (multiYearGrowthYears r)

def multiYearGrowth (difficulty : Difficulty) (type : QuestionType) (r : RNG) (s : RState) :
    Option Question × RState :=
  if difficulty ≠ Difficulty.tough then (none, s)
  else
    let base := multiYearGrowthBase r
    let annualGrowth := multiYearGrowthPct r
    let years := multiYearGrowthYears r
    let signature := multiYearGrowthSig r
    if isRecent signature s then (none, s)
    else
      let s2 := addToRecent MAX_RECENT signature s
      let correctAnswer := base * (1 + annualGrowth / 100) ^ years
      let prompt :=
        if type = QuestionType.estimate then
          "Starting revenue: $" ++ formatNumber base ++ ". Growing " ++ toString annualGrowth
            ++ "% annually for " ++ toString years ++ " years. Estimate final revenue."
        else
          "A company starts at $" ++ formatNumber base ++ " revenue and grows "
            ++ toString annualGrowth ++ "% each year for " ++ toString years
            ++ " years. What is the final revenue?"
      (some { id := generateId (r 3), type := type, difficulty := difficulty, prompt := prompt,
              correctAnswer := correctAnswer,
              meta := some { baseValue := base, percent := some annualGrowth,
                             secondValue := none, operation := "multi_year_growth" } }, s2)

end V1

end QGen

namespace QGen

namespace V1

/-- The variant-1 template catalog (`TemplateGenerator` closures become tags
run through `runTemplate`). -/
inductive Tmpl where
  | percentOfNumber
  | reversePercentage
  | multiplication
  | division
  | profitMargin
  | costStructure
  | priceChange
  | perUnitCalculation
  | marketShare
  | growthCalculation
  | breakEvenTarget
  | compoundPercentage
  | weightedAverage
  | largeNumberEstimate
  | multiYearGrowth
deriving DecidableEq, Repr

def runTemplate : Tmpl → Difficulty → QuestionType → RNG → RState → Option Question × RState
  | Tmpl.percentOfNumber, d, ty, r, s => percentOfNumber d ty r s
  | Tmpl.reversePercentage, d, ty, r, s => reversePercentage d ty r s
  | Tmpl.multiplication, d, ty, r, s => multiplication d ty r s
  | Tmpl.division, d, ty, r, s => division d ty r s
  | Tmpl.profitMargin, d, ty, r, s => profitMargin d ty r s
  | Tmpl.costStructure, d, ty, r, s => costStructure d ty r s
  | Tmpl.priceChange, d, ty, r, s => priceChange d ty r s
  | Tmpl.perUnitCalculation, d, ty, r, s => perUnitCalculation d ty r s
  | Tmpl.marketShare, d, ty, r, s => marketShare d ty r s
  | Tmpl.growthCalculation, d, ty, r, s => growthCalculation d ty r s
  | Tmpl.breakEvenTarget, d, ty, r, s => breakEvenTarget d ty r s
  | Tmpl.compoundPercentage, d, ty, r, s => compoundPercentage d ty r s
  | Tmpl.weightedAverage, d, ty, r, s => weightedAverage d ty r s
  | Tmpl.largeNumberEstimate, d, ty, r, s => largeNumberEstimate d ty r s
  | Tmpl.multiYearGrowth, d, ty, r, s => multiYearGrowth d ty r s

/-- The signature each template computes from its drawn operands, written
from the source; `none` on the difficulty/type-gated refusal paths, where
the source returns before computing a signature. -/
def sigOf : Tmpl → Difficulty → QuestionType → RNG → Option String
  | Tmpl.percentOfNumber, d, _, r => some (percentOfNumberSig d r)
  | Tmpl.reversePercentage, d, _, r => some (reversePercentageSig d r)
  | Tmpl.multiplication, d, _, r => some (multiplicationSig d r)
  | Tmpl.division, d, _, r => some (divisionSig d r)
  | Tmpl.profitMargin, d, _, r => some (profitMarginSig d r)
  | Tmpl.costStructure, d, _, r => some (costStructureSig d r)
  | Tmpl.priceChange, d, _, r => some (priceChangeSig d r)
  | Tmpl.perUnitCalculation, d, _, r => some (perUnitCalculationSig d r)
  | Tmpl.marketShare, d, _, r => some (marketShareSig d r)
  | Tmpl.growthCalculation, d, _, r => some (growthCalculationSig d r)
  | Tmpl.breakEvenTarget, d, _, r => some (breakEvenTargetSig d r)
  | Tmpl.compoundPercentage, d, _, r =>
      if d = Difficulty.easy then none else some (compoundPercentageSig d r)
  | Tmpl.weightedAverage, d, _, r =>
      if d = Difficulty.easy then none else some (weightedAverageSig d r)
  | Tmpl.largeNumberEstimate, d, ty, r =>
      if ty = QuestionType.accurate ∧ d = Difficulty.easy then none
      else some (largeNumberEstimateSig d r)
  | Tmpl.multiYearGrowth, d, _, r =>
      if d ≠ Difficulty.tough then none else some (multiYearGrowthSig r)

/-- Models `getTemplatesForDifficulty` (the `_type` parameter is unused in
the source as well). -/
def getTemplatesForDifficulty (difficulty : Difficulty) (_type : QuestionType) : List Tmpl :=
  let baseTemplates : List Tmpl :=
    [Tmpl.percentOfNumber, Tmpl.multiplication, Tmpl.division, Tmpl.profitMargin,
     Tmpl.priceChange, Tmpl.perUnitCalculation]
  match difficulty with
  | Difficulty.easy =>
      [Tmpl.percentOfNumber, Tmpl.percentOfNumber, Tmpl.multiplication, Tmpl.division,
       Tmpl.profitMargin, Tmpl.priceChange, Tmpl.perUnitCalculation, Tmpl.growthCalculation,
       Tmpl.marketShare]
  | Difficulty.medium =>
      baseTemplates ++
        [Tmpl.reversePercentage, Tmpl.costStructure, Tmpl.growthCalculation, Tmpl.marketShare,
         Tmpl.breakEvenTarget, Tmpl.compoundPercentage, Tmpl.weightedAverage,
         Tmpl.largeNumberEstimate]
  | Difficulty.tough =>
      baseTemplates ++
        [Tmpl.reversePercentage, Tmpl.costStructure, Tmpl.growthCalculation, Tmpl.marketShare,
         Tmpl.breakEvenTarget, Tmpl.compoundPercentage, Tmpl.weightedAverage,
         Tmpl.largeNumberEstimate, Tmpl.multiYearGrowth]

def maxAttempts : Nat := 30

/-- The retry loop of `generateQuestion`: up to `fuel` further attempts,
each drawing a template uniformly (oracle row `attempt`, slot 0) and
returning the first non-null result. -/
def attemptLoop (ty : QuestionType) (d : Difficulty) (ρ : Nat → RNG) :
    Nat → Nat → RState → Option Question × RState
  | 0, _, s => (none, s)
  | Nat.succ fuel, attempt, s =>
    let templates := getTemplatesForDifficulty d ty
    let t := randomChoice templates Tmpl.percentOfNumber (ρ attempt 0)
    match runTemplate t d ty (shiftRNG (ρ attempt) 1) s with
    | (some q, s2) => (some q, s2)
    | (none, s2) => attemptLoop ty d ρ fuel (attempt + 1) s2

def fallbackBases : Difficulty → List ℚ
  | Difficulty.easy => EASY_BASES
  | Difficulty.medium => MEDIUM_BASES
  | Difficulty.tough => TOUGH_BASES

def fallbackPcts : Difficulty → List ℚ
  | Difficulty.easy => EASY_PERCENTAGES
  | Difficulty.medium => MEDIUM_PERCENTAGES
  | Difficulty.tough => TOUGH_PERCENTAGES

/-- Models variant-1 `generateQuestion(type, difficulty)`: 30 attempts, then
the recency-unchecked percentage fallback drawn from the requested
difficulty's pools (oracle row `maxAttempts`). -/
def generateQuestion (ty : QuestionType) (d : Difficulty) (ρ : Nat → RNG) (s : RState) :
    Question × RState :=
  match attemptLoop ty d ρ maxAttempts 0 s with
  | (some q, s2) => (q, s2)
  | (none, s2) =>
    let rf := ρ maxAttempts
    let base := randomChoice (fallbackBases d) 0 (rf 0)
    let pct := randomChoice (fallbackPcts d) 0 (rf 1)
    let correctAnswer := base * pct / 100
    ({ id := generateId (rf 2), type := ty, difficulty := d,
       prompt := "What is " ++ toString pct ++ "% of " ++ formatNumber base ++ "?",
       correctAnswer := correctAnswer,
       meta := some { baseValue := base, percent := some pct, secondValue := none,
                      operation := "percent" } }, s2)

end V1

end QGen

namespace QGen

/-! ### Variant 2: the "precise vs estimate" engine file -/

namespace V2

def MAX_RECENT : Nat := 100

/-- Models variant-2 `formatCurrency` (the `toFixed` digit trimming is
cosmetic and not rendered). -/
def formatCurrency (num : ℚ) : String :=
  if 1000000000 ≤ num then "$" ++ toString (num / 1000000000) ++ "B"
  else if 1000000 ≤ num then "$" ++ toString (num / 1000000) ++ "M"
  else if 1000 ≤ num then "$" ++ toString (num / 1000) ++ "K"
  else "$" ++ formatNumber num

def PRECISE_EASY_PERCENTAGES : List ℚ := [10, 20, 25, 50, 5, 15]
def PRECISE_MEDIUM_PERCENTAGES : List ℚ := [10, 15, 20, 25, 30, 5, 12, 8]
def PRECISE_TOUGH_PERCENTAGES : List ℚ := [15, 12, 18, 22, 35, 45, 8, 6]

def ESTIMATE_PERCENTAGES : List ℚ := [7, 13, 17, 19, 23, 27, 31, 37, 41, 43, 47]

def PRECISE_EASY_BASES : List ℚ :=
  [100, 200, 400, 500, 1000, 2000, 4000, 5000, 10000, 20000, 50000, 100000]
def PRECISE_MEDIUM_BASES : List ℚ :=
  [120, 150, 240, 300, 360, 400, 450, 480, 600, 750, 800, 900, 1200, 1500, 1800, 2400, 3000,
   3600, 4500, 4800, 6000, 7500, 8000, 9000, 12000, 15000, 18000, 24000, 30000, 36000, 45000,
   48000, 60000, 75000, 80000, 90000, 120000, 150000]
def PRECISE_TOUGH_BASES : List ℚ :=
  [125, 175, 225, 275, 325, 375, 425, 475, 525, 625, 725, 825, 925, 1250, 1750, 2250, 2750,
   3250, 3750, 4250, 12500, 17500, 22500, 27500, 32500, 125000, 175000, 225000]

def ESTIMATE_BASES : List ℚ :=
  [1340000, 2780000, 4560000, 7890000, 13400000, 27800000, 45600000, 78900000, 134000000,
   278000000, 456000000, 789000000, 1340000000, 2780000000, 4560000000, 7890000000,
   13400000000]

def EASY_MULTIPLIERS : List ℚ := [2, 3, 4, 5, 6, 8, 10, 11, 12]
def MEDIUM_MULTIPLIERS : List ℚ := [7, 9, 12, 15, 18, 24, 25]
def TOUGH_MULTIPLIERS : List ℚ := [13, 14, 16, 17, 19, 21, 22, 23]

/-! Template 1: `percentOfNumberPrecise`. Slots: 0 base, 1 pct, 2 id. -/

def percentOfNumberPreciseBase (difficulty : Difficulty) (r : RNG) : ℚ :=
  match difficulty with
  | Difficulty.easy => randomChoice PRECISE_EASY_BASES 0 (r 0)
  | Difficulty.medium => randomChoice PRECISE_MEDIUM_BASES 0 (r 0)
  | Difficulty.tough => randomChoice PRECISE_TOUGH_BASES 0 (r 0)

def percentOfNumberPrecisePct (difficulty : Difficulty) (r : RNG) : ℚ :=
  match difficulty with
  | Difficulty.easy => randomChoice PRECISE_EASY_PERCENTAGES 0 (r 1)
  | Difficulty.medium => randomChoice PRECISE_MEDIUM_PERCENTAGES 0 (r 1)
  | Difficulty.tough => randomChoice PRECISE_TOUGH_PERCENTAGES 0 (r 1)

def percentOfNumberPreciseSig (difficulty : Difficulty) (r : RNG) : String :=
  "pct_precise_" ++ toString (percentOfNumberPrecisePct difficulty r) ++ "_"
    ++ toString (percentOfNumberPreciseBase difficulty r)

def percentOfNumberPrecise (difficulty : Difficulty) (r : RNG) (s : RState) :
    Option Question × RState :=
  let base := percentOfNumberPreciseBase difficulty r
  let pct := percentOfNumberPrecisePct difficulty r
  let signature := percentOfNumberPreciseSig difficulty r
  if isRecent signature s then (none, s)
  else
    let s2 := addToRecent MAX_RECENT signature s
    let correctAnswer := base * pct / 100
    let hint :=
      if pct = 10 then " (Tip: divide by 10)"
      else if pct = 5 then " (Tip: half of 10%)"
      else if pct = 15 then " (Tip: 10% + 5%)"
      else if pct = 20 then " (Tip: 10% x 2)"
      else if pct = 25 then " (Tip: divide by 4)"
      else if pct = 50 then " (Tip: divide by 2)"
      else ""
    let prompt := "What is " ++ toString pct ++ "% of " ++ formatNumber base ++ "?"
      ++ (if difficulty = Difficulty.easy then hint else "")
    (some { id := generateId (r 2), type := QuestionType.accurate, difficulty := difficulty,
            prompt := prompt, correctAnswer := correctAnswer,
            meta := some { baseValue := base, percent := some pct, secondValue := none,
                           operation := "percent" } }, s2)

/-! Template 2: `percentOfNumberEstimate`. Slots: 0 base, 1 pct, 2 context, 3 id. -/

def percentOfNumberEstimateBase (difficulty : Difficulty) (r : RNG) : ℚ :=
  match difficulty with
  | Difficulty.easy => randomChoice (ESTIMATE_BASES.take 6) 0 (r 0)
  | Difficulty.medium => randomChoice ((ESTIMATE_BASES.drop 3).take 9) 0 (r 0)
  | Difficulty.tough => randomChoice (ESTIMATE_BASES.drop 6) 0 (r 0)

def percentOfNumberEstimatePct (difficulty : Difficulty) (r : RNG) : ℚ :=
  match difficulty with
  | Difficulty.easy => randomChoice [5, 10, 15, 20] 0 (r 1)
  | Difficulty.medium => randomChoice (ESTIMATE_PERCENTAGES.take 6) 0 (r 1)
  | Difficulty.tough => randomChoice ESTIMATE_PERCENTAGES 0 (r 1)

def percentOfNumberEstimateSig (difficulty : Difficulty) (r : RNG) : String :=
  "pct_est_" ++ toString (percentOfNumberEstimatePct difficulty r) ++ "_"
    ++ toString (percentOfNumberEstimateBase difficulty r)

def percentOfNumberEstimate (difficulty : Difficulty) (r : RNG) (s : RState) :
    Option Question × RState :=
  let base := percentOfNumberEstimateBase difficulty r
  let pct := percentOfNumberEstimatePct difficulty r
  let signature := percentOfNumberEstimateSig difficulty r
  if isRecent signature s then (none, s)
  else
    let s2 := addToRecent MAX_RECENT signature s
    let correctAnswer := base * pct / 100
    let context :=
      randomChoice ["Total addressable market", "Company valuation", "Annual revenue",
        "Market size", "Industry revenue", "Global sales"] "" (r 2)
    let prompt := context ++ " is " ++ formatCurrency base ++ ". Estimate " ++ toString pct
      ++ "% of that."
    (some { id := generateId (r 3), type := QuestionType.estimate, difficulty := difficulty,
            prompt := prompt, correctAnswer := correctAnswer,
            meta := some { baseValue := base, percent := some pct, secondValue := none,
                           operation := "percent_estimate" } }, s2)

/-! Template 3: `multiplicationPrecise`. Slots: 0 a, 1 b, 2 id. -/

def multiplicationPreciseA (difficulty : Difficulty) (r : RNG) : ℚ :=
  match difficulty with
  | Difficulty.easy =>
      randomChoice [12, 15, 18, 20, 24, 25, 30, 36, 40, 45, 48, 50, 60, 72, 75, 80, 90, 100,
        120, 125] 0 (r 0)
  | Difficulty.medium =>
      randomChoice [35, 45, 55, 65, 75, 85, 95, 125, 150, 175, 225, 250, 275, 325, 350, 375,
        425, 450] 0 (r 0)
  | Difficulty.tough =>
      randomChoice [135, 145, 155, 165, 185, 195, 215, 235, 245, 255, 265, 285, 295, 315, 335,
        345] 0 (r 0)

def multiplicationPreciseB (difficulty : Difficulty) (r : RNG) : ℚ :=
  match difficulty with
  | Difficulty.easy => randomChoice EASY_MULTIPLIERS 0 (r 1)
  | Difficulty.medium => randomChoice MEDIUM_MULTIPLIERS 0 (r 1)
  | Difficulty.tough => randomChoice TOUGH_MULTIPLIERS 0 (r 1)

def multiplicationPreciseSig (difficulty : Difficulty) (r : RNG) : String :=
  "mult_" ++ toString (multiplicationPreciseA difficulty r) ++ "_"
    ++ toString (multiplicationPreciseB difficulty r)

def multiplicationPrecise (difficulty : Difficulty) (r : RNG) (s : RState) :
    Option Question × RState :=
  let a := multiplicationPreciseA difficulty r
  let b := multiplicationPreciseB difficulty r
  let signature := multiplicationPreciseSig difficulty r
  if isRecent signature s then (none, s)
  else
    let s2 := addToRecent MAX_RECENT signature s
    (some { id := generateId (r 2), type := QuestionType.accurate, difficulty := difficulty,
            prompt := toString a ++ " x " ++ toString b ++ " = ?", correctAnswer := a * b,
            meta := some { baseValue := a, percent := none, secondValue := some b,
                           operation := "multiplication" } }, s2)

/-! Template 4: `divisionPrecise`. Slots: 0 divisor, 1 quotient, 2 id. -/

def divisionPreciseDivisor (difficulty : Difficulty) (r : RNG) : ℚ :=
  match difficulty with
  | Difficulty.easy => randomChoice [2, 4, 5, 8, 10] 0 (r 0)
  | Difficulty.medium => randomChoice [3, 6, 7, 8, 9, 12, 15] 0 (r 0)
  | Difficulty.tough => randomChoice [7, 8, 9, 11, 12, 13, 14, 15, 16, 17, 18] 0 (r 0)

def divisionPreciseQuotient (difficulty : Difficulty) (r : RNG) : ℚ :=
  match difficulty with
  | Difficulty.easy =>
      randomChoice [15, 20, 25, 30, 35, 40, 45, 50, 60, 75, 80, 100, 120, 125, 150, 200, 250]
        0 (r 1)
  | Difficulty.medium =>
      randomChoice [45, 60, 72, 80, 90, 96, 108, 120, 135, 144, 150, 160, 180, 200, 240, 250,
        300] 0 (r 1)
  | Difficulty.tough =>
      randomChoice [125, 144, 156, 168, 175, 192, 225, 234, 256, 275, 288, 325, 350, 375, 400,
        425, 450] 0 (r 1)

def divisionPreciseSig (difficulty : Difficulty) (r : RNG) : String :=
  let divisor := divisionPreciseDivisor difficulty r
  "div_" ++ toString (divisor * divisionPreciseQuotient difficulty r) ++ "_" ++ toString divisor

def divisionPrecise (difficulty : Difficulty) (r : RNG) (s : RState) :
    Option Question × RState :=
  let divisor := divisionPreciseDivisor difficulty r
  let quotient := divisionPreciseQuotient difficulty r
  let base := divisor * quotient
  let signature := divisionPreciseSig difficulty r
  if isRecent signature s then (none, s)
  else
    let s2 := addToRecent MAX_RECENT signature s
    (some { id := generateId (r 2), type := QuestionType.accurate, difficulty := difficulty,
            prompt := formatNumber base ++ " / " ++ toString divisor ++ " = ?",
            correctAnswer := quotient,
            meta := some { baseValue := base, percent := none, secondValue := some divisor,
                           operation := "division" } }, s2)

/-! Template 5: `profitMarginPrecise`. Slots: 0 revenue, 1 margin, 2 id. -/

def profitMarginPreciseRevenue (difficulty : Difficulty) (r : RNG) : ℚ :=
  match difficulty with
  | Difficulty.easy =>
      randomChoice [100000, 200000, 400000, 500000, 800000, 1000000, 2000000] 0 (r 0)
  | Difficulty.medium =>
      randomChoice [120000, 150000, 180000, 240000, 300000, 360000, 450000, 600000, 750000,
        900000, 1200000, 1500000] 0 (r 0)
  | Difficulty.tough =>
      randomChoice [125000, 175000, 225000, 275000, 325000, 375000, 425000, 475000, 525000,
        625000, 725000, 825000] 0 (r 0)

def profitMarginPrecisePct (difficulty : Difficulty) (r : RNG) : ℚ :=
  match difficulty with
  | Difficulty.easy => randomChoice [10, 20, 25, 50] 0 (r 1)
  | Difficulty.medium => randomChoice [10, 15, 20, 25, 30] 0 (r 1)
  | Difficulty.tough => randomChoice [12, 15, 18, 22, 24, 28] 0 (r 1)

def profitMarginPreciseSig (difficulty : Difficulty) (r : RNG) : String :=
  "margin_p_" ++ toString (profitMarginPreciseRevenue difficulty r) ++ "_"
    ++ toString (profitMarginPrecisePct difficulty r)

def profitMarginPrecise (difficulty : Difficulty) (r : RNG) (s : RState) :
    Option Question × RState :=
  let revenue := profitMarginPreciseRevenue difficulty r
  let marginPct := profitMarginPrecisePct difficulty r
  let signature := profitMarginPreciseSig difficulty r
  if isRecent signature s then (none, s)
  else
    let s2 := addToRecent MAX_RECENT signature s
    (some { id := generateId (r 2), type := QuestionType.accurate, difficulty := difficulty,
            prompt := "Revenue: $" ++ formatNumber revenue ++ ". Margin: " ++ toString marginPct
              ++ "%. What is the profit?",
            correctAnswer := revenue * marginPct / 100,
            meta := some { baseValue := revenue, percent := some marginPct, secondValue := none,
                           operation := "margin" } }, s2)

/-! Template 6: `profitMarginEstimate`. Slots: 0 revenue, 1 margin, 2 company, 3 id. -/

def profitMarginEstimateRevenue (difficulty : Difficulty) (r : RNG) : ℚ :=
  match difficulty with
  | Difficulty.easy =>
      randomChoice [1200000, 3400000, 5600000, 7800000, 12000000] 0 (r 0)
  | Difficulty.medium =>
      randomChoice [14500000, 27800000, 43200000, 67500000, 89400000, 124000000] 0 (r 0)
  | Difficulty.tough =>
      randomChoice [156000000, 234000000, 478000000, 567000000, 892000000, 1340000000] 0 (r 0)

def profitMarginEstimatePct (difficulty : Difficulty) (r : RNG) : ℚ :=
  match difficulty with
  | Difficulty.easy => randomChoice [10, 15, 20, 25] 0 (r 1)
  | Difficulty.medium => randomChoice [8, 12, 17, 23, 28] 0 (r 1)
  | Difficulty.tough => randomChoice [7, 11, 13, 19, 21, 27] 0 (r 1)

def profitMarginEstimateSig (difficulty : Difficulty) (r : RNG) : String :=
  "margin_e_" ++ toString (profitMarginEstimateRevenue difficulty r) ++ "_"
    ++ toString (profitMarginEstimatePct difficulty r)

def profitMarginEstimate (difficulty : Difficulty) (r : RNG) (s : RState) :
    Option Question × RState :=
  let revenue := profitMarginEstimateRevenue difficulty r
  let marginPct := profitMarginEstimatePct difficulty r
  let signature := profitMarginEstimateSig difficulty r
  if isRecent signature s then (none, s)
  else
    let s2 := addToRecent MAX_RECENT signature s
    let company :=
      randomChoice ["tech startup", "retail chain", "SaaS company", "manufacturing firm",
        "consulting firm", "e-commerce business"] "" (r 2)
    (some { id := generateId (r 3), type := QuestionType.estimate, difficulty := difficulty,
            prompt := "A " ++ company ++ " has " ++ formatCurrency revenue ++ " revenue with "
              ++ toString marginPct ++ "% margin. Estimate profit.",
            correctAnswer := revenue * marginPct / 100,
            meta := some { baseValue := revenue, percent := some marginPct, secondValue := none,
                           operation := "margin_estimate" } }, s2)

/-! Template 7: `perUnitPrecise`. Slots: 0 units, 1 perUnit, 2 coin, 3 item, 4 id. -/

def perUnitPreciseUnits (difficulty : Difficulty) (r : RNG) : ℚ :=
  match difficulty with
  | Difficulty.easy => randomChoice [10, 20, 25, 40, 50, 100, 200, 250, 500] 0 (r 0)
  | Difficulty.medium =>
      randomChoice [24, 36, 48, 60, 72, 84, 96, 120, 144, 150, 180, 240] 0 (r 0)
  | Difficulty.tough =>
      randomChoice [125, 144, 156, 175, 192, 225, 256, 275, 324, 375, 400, 432, 450, 500]
        0 (r 0)

def perUnitPrecisePerUnit (difficulty : Difficulty) (r : RNG) : ℚ :=
  match difficulty with
  | Difficulty.easy => randomChoice [50, 80, 100, 120, 150, 200, 250, 400, 500] 0 (r 1)
  | Difficulty.medium =>
      randomChoice [45, 55, 65, 75, 85, 95, 125, 150, 175, 225, 250, 275] 0 (r 1)
  | Difficulty.tough =>
      randomChoice [48, 64, 72, 84, 96, 108, 125, 144, 156, 175, 196, 225] 0 (r 1)

def perUnitPreciseSig (difficulty : Difficulty) (r : RNG) : String :=
  let units := perUnitPreciseUnits difficulty r
  "perunit_p_" ++ toString (units * perUnitPrecisePerUnit difficulty r) ++ "_"
    ++ toString units ++ "_" ++ toString (coinFlip (r 2))

def perUnitPrecise (difficulty : Difficulty) (r : RNG) (s : RState) :
    Option Question × RState :=
  let units := perUnitPreciseUnits difficulty r
  let perUnit := perUnitPrecisePerUnit difficulty r
  let total := units * perUnit
  let askForPerUnit := coinFlip (r 2)
  let item := randomChoice ["units", "customers", "stores", "employees"] "" (r 3)
  let signature := perUnitPreciseSig difficulty r
  if isRecent signature s then (none, s)
  else
    let s2 := addToRecent MAX_RECENT signature s
    if askForPerUnit then
      (some { id := generateId (r 4), type := QuestionType.accurate, difficulty := difficulty,
              prompt := "Total revenue: $" ++ formatNumber total ++ " from " ++ toString units
                ++ " " ++ item ++ ". Revenue per " ++ item.dropRight 1 ++ "?",
              correctAnswer := perUnit,
              meta := some { baseValue := total, percent := none, secondValue := some units,
                             operation := "per_unit" } }, s2)
    else
      (some { id := generateId (r 4), type := QuestionType.accurate, difficulty := difficulty,
              prompt := toString units ++ " " ++ item ++ " x $" ++ toString perUnit
                ++ " each = ?",
              correctAnswer := total,
              meta := some { baseValue := perUnit, percent := none, secondValue := some units,
                             operation := "total_from_unit" } }, s2)

/-! Template 8: `priceChangePrecise`. Slots: 0 coin, 1 price, 2 changePct, 3 id. -/

def priceChangePrecisePrice (difficulty : Difficulty) (r : RNG) : ℚ :=
  match difficulty with
  | Difficulty.easy => randomChoice [100, 200, 400, 500, 800, 1000, 2000, 4000, 5000] 0 (r 1)
  | Difficulty.medium =>
      randomChoice [120, 150, 180, 240, 300, 360, 450, 600, 750, 800, 900, 1200] 0 (r 1)
  | Difficulty.tough =>
      randomChoice [125, 175, 225, 275, 325, 375, 425, 475, 525, 625, 725, 825] 0 (r 1)

def priceChangePrecisePct (difficulty : Difficulty) (r : RNG) : ℚ :=
  match difficulty with
  | Difficulty.easy => randomChoice [10, 20, 25, 50] 0 (r 2)
  | Difficulty.medium => randomChoice [10, 15, 20, 25, 30] 0 (r 2)
  | Difficulty.tough => randomChoice [12, 15, 18, 20, 24, 25] 0 (r 2)

def priceChangePreciseSig (difficulty : Difficulty) (r : RNG) : String :=
  "price_p_" ++ toString (priceChangePrecisePrice difficulty r) ++ "_"
    ++ toString (priceChangePrecisePct difficulty r) ++ "_" ++ toString (coinFlip (r 0))

def priceChangePrecise (difficulty : Difficulty) (r : RNG) (s : RState) :
    Option Question × RState :=
  let isIncrease := coinFlip (r 0)
  let price := priceChangePrecisePrice difficulty r
  let changePct := priceChangePrecisePct difficulty r
  let signature := priceChangePreciseSig difficulty r
  if isRecent signature s then (none, s)
  else
    let s2 := addToRecent MAX_RECENT signature s
    let changeAmount := price * changePct / 100
    let correctAnswer := if isIncrease then price + changeAmount else price - changeAmount
    let action := if isIncrease then "increases" else "decreases"
    (some { id := generateId (r 3), type := QuestionType.accurate, difficulty := difficulty,
            prompt := "$" ++ formatNumber price ++ " " ++ action ++ " by " ++ toString changePct
              ++ "%. New price?",
            correctAnswer := correctAnswer,
            meta := some { baseValue := price, percent := some changePct, secondValue := none,
                           operation := if isIncrease then "increase" else "decrease" } }, s2)

/-! Template 9: `marketShareEstimate`. Slots: 0 marketSize, 1 sharePct, 2 industry, 3 id. -/

def marketShareEstimateSize (difficulty : Difficulty) (r : RNG) : ℚ :=
  match difficulty with
  | Difficulty.easy =>
      randomChoice [12000000000, 25000000000, 48000000000, 75000000000, 120000000000] 0 (r 0)
  | Difficulty.medium =>
      randomChoice [34000000000, 67000000000, 89000000000, 145000000000, 234000000000,
        378000000000] 0 (r 0)
  | Difficulty.tough =>
      randomChoice [156000000000, 289000000000, 423000000000, 567000000000, 789000000000,
        1230000000000] 0 (r 0)

def marketShareEstimatePct (difficulty : Difficulty) (r : RNG) : ℚ :=
  match difficulty with
  | Difficulty.easy => randomChoice [5, 10, 15, 20, 25] 0 (r 1)
  | Difficulty.medium => randomChoice [7, 12, 17, 23, 28] 0 (r 1)
  | Difficulty.tough => randomChoice [3, 7, 11, 13, 17, 19, 23] 0 (r 1)

def marketShareEstimateSig (difficulty : Difficulty) (r : RNG) : String :=
  "market_" ++ toString (marketShareEstimateSize difficulty r) ++ "_"
    ++ toString (marketShareEstimatePct difficulty r)

def marketShareEstimate (difficulty : Difficulty) (r : RNG) (s : RState) :
    Option Question × RState :=
  let marketSize := marketShareEstimateSize difficulty r
  let sharePct := marketShareEstimatePct difficulty r
  let signature := marketShareEstimateSig difficulty r
  if isRecent signature s then (none, s)
  else
    let s2 := addToRecent MAX_RECENT signature s
    let industry :=
      randomChoice ["cloud computing", "electric vehicles", "streaming services",
        "food delivery", "fintech", "cybersecurity"] "" (r 2)
    (some { id := generateId (r 3), type := QuestionType.estimate, difficulty := difficulty,
            prompt := "The " ++ industry ++ " market is " ++ formatCurrency marketSize
              ++ ". Estimate revenue for a " ++ toString sharePct ++ "% share.",
            correctAnswer := marketSize * sharePct / 100,
            meta := some { baseValue := marketSize, percent := some sharePct,
                           secondValue := none, operation := "market_share" } }, s2)

/-! Template 10: `growthPrecise`. Slots: 0 base, 1 growthPct, 2 id. -/

def growthPreciseBase (difficulty : Difficulty) (r : RNG) : ℚ :=
  match difficulty with
  | Difficulty.easy =>
      randomChoice [100000, 200000, 400000, 500000, 1000000, 2000000] 0 (r 0)
  | Difficulty.medium =>
      randomChoice [120000, 150000, 180000, 240000, 300000, 360000, 450000, 600000, 750000,
        900000] 0 (r 0)
  | Difficulty.tough =>
      randomChoice [125000, 175000, 225000, 275000, 325000, 375000, 425000, 475000, 525000,
        625000] 0 (r 0)

def growthPrecisePct (difficulty : Difficulty) (r : RNG) : ℚ :=
  match difficulty with
  | Difficulty.easy => randomChoice [10, 20, 25, 50, 100] 0 (r 1)
  | Difficulty.medium => randomChoice [10, 15, 20, 25, 30, 40] 0 (r 1)
  | Difficulty.tough => randomChoice [12, 15, 18, 20, 24, 25, 32, 35] 0 (r 1)

def growthPreciseSig (difficulty : Difficulty) (r : RNG) : String :=
  "growth_p_" ++ toString (growthPreciseBase difficulty r) ++ "_"
    ++ toString (growthPrecisePct difficulty r)

def growthPrecise (difficulty : Difficulty) (r : RNG) (s : RState) :
    Option Question × RState :=
  let baseValue := growthPreciseBase difficulty r
  let growthPct := growthPrecisePct difficulty r
  let signature := growthPreciseSig difficulty r
  if isRecent signature s then (none, s)
  else
    let s2 := addToRecent MAX_RECENT signature s
    (some { id := generateId (r 2), type := QuestionType.accurate, difficulty := difficulty,
            prompt := "Last year: $" ++ formatNumber baseValue ++ ". After "
              ++ toString growthPct ++ "% growth, this year = ?",
            correctAnswer := baseValue * (1 + growthPct / 100),
            meta := some { baseValue := baseValue, percent := some growthPct,
                           secondValue := none, operation := "growth" } }, s2)

/-! Template 11: `growthEstimate`. Slots: 0 base, 1 growthPct, 2 metric, 3 id. -/

def growthEstimateBase (difficulty : Difficulty) (r : RNG) : ℚ :=
  match difficulty with
  | Difficulty.easy =>
      randomChoice [12000000, 34000000, 56000000, 78000000, 120000000] 0 (r 0)
  | Difficulty.medium =>
      randomChoice [145000000, 278000000, 432000000, 567000000, 789000000] 0 (r 0)
  | Difficulty.tough =>
      randomChoice [1230000000, 2340000000, 3450000000, 4560000000, 5670000000] 0 (r 0)

def growthEstimatePct (difficulty : Difficulty) (r : RNG) : ℚ :=
  match difficulty with
  | Difficulty.easy => randomChoice [15, 20, 25, 30, 40] 0 (r 1)
  | Difficulty.medium => randomChoice [17, 23, 28, 33, 42] 0 (r 1)
  | Difficulty.tough => randomChoice [13, 19, 27, 31, 37, 43] 0 (r 1)

def growthEstimateSig (difficulty : Difficulty) (r : RNG) : String :=
  "growth_e_" ++ toString (growthEstimateBase difficulty r) ++ "_"
    ++ toString (growthEstimatePct difficulty r)

def growthEstimate (difficulty : Difficulty) (r : RNG) (s : RState) :
    Option Question × RState :=
  let baseValue := growthEstimateBase difficulty r
  let growthPct := growthEstimatePct difficulty r
  let signature := growthEstimateSig difficulty r
  if isRecent signature s then (none, s)
  else
    let s2 := addToRecent MAX_RECENT signature s
    let metric := randomChoice ["revenue", "ARR", "GMV", "sales", "bookings"] "" (r 2)
    (some { id := generateId (r 3), type := QuestionType.estimate, difficulty := difficulty,
            prompt := metric.toUpper ++ " was " ++ formatCurrency baseValue ++ ". After "
              ++ toString growthPct ++ "% growth, estimate the new value.",
            correctAnswer := baseValue * (1 + growthPct / 100),
            meta := some { baseValue := baseValue, percent := some growthPct,
                           secondValue := none, operation := "growth_estimate" } }, s2)

/-! Template 12: `breakEvenPrecise`. Slots: 0 fixedCosts, 1 price, 2 id.
NOTE: unlike variant 1, the source divides `fixedCosts / contribution` with
NO rounding (`const breakEvenUnits = fixedCosts / contribution`). -/

def breakEvenPreciseFixedCosts (difficulty : Difficulty) (r : RNG) : ℚ :=
  match difficulty with
  | Difficulty.easy => randomChoice [10000, 20000, 50000, 100000] 0 (r 0)
  | Difficulty.medium =>
      randomChoice [60000, 90000, 120000, 150000, 180000, 240000] 0 (r 0)
  | Difficulty.tough =>
      randomChoice [75000, 125000, 175000, 225000, 275000, 325000] 0 (r 0)

def breakEvenPrecisePrice (difficulty : Difficulty) (r : RNG) : ℚ :=
  match difficulty with
  | Difficulty.easy => randomChoice [50, 100, 200, 250] 0 (r 1)
  | Difficulty.medium => randomChoice [40, 60, 80, 100, 120, 150] 0 (r 1)
  | Difficulty.tough => randomChoice [45, 55, 65, 75, 85, 95, 125] 0 (r 1)

def breakEvenPreciseVariableCost (difficulty : Difficulty) (r : RNG) : ℚ :=
  let price := breakEvenPrecisePrice difficulty r
  match difficulty with
  | Difficulty.easy => price / 2
  | Difficulty.medium => price * 0.6
  | Difficulty.tough => ((jsRound (price * 0.65) : ℤ) : ℚ)

def breakEvenPreciseSig (difficulty : Difficulty) (r : RNG) : String :=
  "breakeven_" ++ toString (breakEvenPreciseFixedCosts difficulty r) ++ "_"
    ++ toString (breakEvenPrecisePrice difficulty r) ++ "_"
    ++ toString (breakEvenPreciseVariableCost difficulty r)

def breakEvenPrecise (difficulty : Difficulty) (r : RNG) (s : RState) :
    Option Question × RState :=
  let fixedCosts := breakEvenPreciseFixedCosts difficulty r
  let pricePerUnit := breakEvenPrecisePrice difficulty r
  let variableCostPerUnit := breakEvenPreciseVariableCost difficulty r
  let contribution := pricePerUnit - variableCostPerUnit
  let breakEvenUnits := fixedCosts / contribution
  let signature := breakEvenPreciseSig difficulty r
  if isRecent signature s then (none, s)
  else
    let s2 := addToRecent MAX_RECENT signature s
    (some { id := generateId (r 2), type := QuestionType.accurate, difficulty := difficulty,
            prompt := "Fixed costs: $" ++ formatNumber fixedCosts ++ ". Price: $"
              ++ toString pricePerUnit ++ ". Variable cost: $" ++ toString variableCostPerUnit
              ++ ". Break-even units?",
            correctAnswer := breakEvenUnits,
            meta := some { baseValue := fixedCosts, percent := none,
                           secondValue := some contribution, operation := "break_even" } }, s2)

/-! Template 13: `reversePercentPrecise`. Slots: 0 whole, 1 pct, 2 id. -/

def reversePercentPreciseWhole (difficulty : Difficulty) (r : RNG) : ℚ :=
  match difficulty with
  | Difficulty.easy =>
      randomChoice [1000, 2000, 4000, 5000, 10000, 20000, 50000, 100000] 0 (r 0)
  | Difficulty.medium =>
      randomChoice [1200, 1500, 1800, 2400, 3000, 3600, 4500, 6000, 7500, 9000, 12000, 15000]
        0 (r 0)
  | Difficulty.tough =>
      randomChoice [1250, 1750, 2250, 2750, 3250, 3750, 4250, 4750, 5250, 6250, 7250, 8250]
        0 (r 0)

def reversePercentPrecisePct (difficulty : Difficulty) (r : RNG) : ℚ :=
  match difficulty with
  | Difficulty.easy => randomChoice [10, 20, 25, 50] 0 (r 1)
  | Difficulty.medium => randomChoice [10, 15, 20, 25, 30] 0 (r 1)
  | Difficulty.tough => randomChoice [12, 15, 18, 20, 24, 25] 0 (r 1)

def reversePercentPreciseSig (difficulty : Difficulty) (r : RNG) : String :=
  let pct := reversePercentPrecisePct difficulty r
  "rev_pct_" ++ toString (reversePercentPreciseWhole difficulty r * pct / 100) ++ "_"
    ++ toString pct

def reversePercentPrecise (difficulty : Difficulty) (r : RNG) (s : RState) :
    Option Question × RState :=
  let whole := reversePercentPreciseWhole difficulty r
  let pct := reversePercentPrecisePct difficulty r
  let part := whole * pct / 100
  let signature := reversePercentPreciseSig difficulty r
  if isRecent signature s then (none, s)
  else
    let s2 := addToRecent MAX_RECENT signature s
    (some { id := generateId (r 2), type := QuestionType.accurate, difficulty := difficulty,
            prompt := formatNumber part ++ " is " ++ toString pct ++ "% of what total?",
            correctAnswer := whole,
            meta := some { baseValue := part, percent := some pct, secondValue := none,
                           operation := "reverse_percent" } }, s2)

/-! Template 14: `costStructurePrecise`. Slots: 0 revenue, 1 costPct, 2 id.
Always asks for the profit (no coin flip, unlike variant 1). -/

def costStructurePreciseRevenue (difficulty : Difficulty) (r : RNG) : ℚ :=
  match difficulty with
  | Difficulty.easy =>
      randomChoice [100000, 200000, 400000, 500000, 800000, 1000000] 0 (r 0)
  | Difficulty.medium =>
      randomChoice [120000, 150000, 180000, 240000, 300000, 360000, 450000, 600000, 750000]
        0 (r 0)
  | Difficulty.tough =>
      randomChoice [125000, 175000, 225000, 275000, 325000, 375000, 425000, 475000, 525000]
        0 (r 0)

def costStructurePrecisePct (difficulty : Difficulty) (r : RNG) : ℚ :=
  match difficulty with
  | Difficulty.easy => randomChoice [50, 60, 70, 75, 80] 0 (r 1)
  | Difficulty.medium => randomChoice [55, 60, 65, 70, 75, 80] 0 (r 1)
  | Difficulty.tough => randomChoice [58, 62, 68, 72, 78, 82] 0 (r 1)

def costStructurePreciseSig (difficulty : Difficulty) (r : RNG) : String :=
  "cost_" ++ toString (costStructurePreciseRevenue difficulty r) ++ "_"
    ++ toString (costStructurePrecisePct difficulty r)

def costStructurePrecise (difficulty : Difficulty) (r : RNG) (s : RState) :
    Option Question × RState :=
  let revenue := costStructurePreciseRevenue difficulty r
  let costPct := costStructurePrecisePct difficulty r
  let signature := costStructurePreciseSig difficulty r
  if isRecent signature s then (none, s)
  else
    let s2 := addToRecent MAX_RECENT signature s
    let profitPct := 100 - costPct
    (some { id := generateId (r 2), type := QuestionType.accurate, difficulty := difficulty,
            prompt := "Revenue: $" ++ formatNumber revenue ++ ". Costs: " ++ toString costPct
              ++ "% of revenue. Profit?",
            correctAnswer := revenue * profitPct / 100,
            meta := some { baseValue := revenue, percent := some costPct, secondValue := none,
                           operation := "cost_structure" } }, s2)

/-! Template 15: `compoundChangePrecise` (refuses `easy`).
Slots: 0 base, 1 pct1, 2 pct2, 3 coin, 4 id. -/

def compoundChangePreciseBase (difficulty : Difficulty) (r : RNG) : ℚ :=
  match difficulty with
  | Difficulty.easy => 0
  | Difficulty.medium => randomChoice [10000, 20000, 50000, 100000, 200000] 0 (r 0)
  | Difficulty.tough =>
      randomChoice [12000, 15000, 18000, 24000, 30000, 36000, 45000, 60000, 75000] 0 (r 0)

def compoundChangePrecisePct1 (difficulty : Difficulty) (r : RNG) : ℚ :=
  match difficulty with
  | Difficulty.easy => 0
  | Difficulty.medium => randomChoice [10, 20, 25] 0 (r 1)
  | Difficulty.tough => randomChoice [10, 15, 20, 25] 0 (r 1)

def compoundChangePrecisePct2 (difficulty : Difficulty) (r : RNG) : ℚ :=
  match difficulty with
  | Difficulty.easy => 0
  | Difficulty.medium => randomChoice [10, 20, 25] 0 (r 2)
  | Difficulty.tough => randomChoice [10, 15, 20] 0 (r 2)

def compoundChangePreciseSig (difficulty : Difficulty) (r : RNG) : String :=
  "compound_" ++ toString (compoundChangePreciseBase difficulty r) ++ "_"
    ++ toString (compoundChangePrecisePct1 difficulty r) ++ "_"
    ++ toString (compoundChangePrecisePct2 difficulty r)

def compoundChangePrecise (difficulty : Difficulty) (r : RNG) (s : RState) :
    Option Question × RState :=
  if difficulty = Difficulty.easy then (none, s)
  else
    let base := compoundChangePreciseBase difficulty r
    let pct1 := compoundChangePrecisePct1 difficulty r
    let pct2 := compoundChangePrecisePct2 difficulty r
    let signature := compoundChangePreciseSig difficulty r
    if isRecent signature s then (none, s)
    else
      let s2 := addToRecent MAX_RECENT signature s
      let isIncreaseThenDecrease := coinFlip (r 3)
      let correctAnswer :=
        if isIncreaseThenDecrease then base * (1 + pct1 / 100) * (1 - pct2 / 100)
        else base * (1 + pct1 / 100) * (1 + pct2 / 100)
      let prompt :=
        if isIncreaseThenDecrease then
          "$" ++ formatNumber base ++ " increases " ++ toString pct1 ++ "%, then decreases "
            ++ toString pct2 ++ "%. Final value?"
        else
          "$" ++ formatNumber base ++ " grows " ++ toString pct1 ++ "%, then another "
            ++ toString pct2 ++ "%. Final value?"
      (some { id := generateId (r 4), type := QuestionType.accurate, difficulty := difficulty,
              prompt := prompt, correctAnswer := correctAnswer,
              meta := some { baseValue := base, percent := some pct1, secondValue := none,
                             operation := "compound" } }, s2)

/-! Template 16: `quickAddSubtract` (refuses `tough`).
Slots: 0 coin, 1 a, 2 b, 3 id. -/

def quickAddSubtractA (difficulty : Difficulty) (r : RNG) : ℚ :=
  match difficulty with
  | Difficulty.easy =>
      randomChoice [250, 450, 750, 850, 1250, 1750, 2500, 3500, 4500, 7500] 0 (r 1)
  | Difficulty.medium =>
      randomChoice [1250, 1750, 2250, 2750, 3250, 3750, 4250, 4750, 5250, 6250, 7250, 8250,
        9250] 0 (r 1)
  | Difficulty.tough => 0

def quickAddSubtractB (difficulty : Difficulty) (r : RNG) : ℚ :=
  match difficulty with
  | Difficulty.easy => randomChoice [150, 250, 350, 450, 550, 650, 750, 850, 950] 0 (r 2)
  | Difficulty.medium =>
      randomChoice [1350, 1650, 1850, 2150, 2350, 2650, 2850, 3150, 3350] 0 (r 2)
  | Difficulty.tough => 0

def quickAddSubtractSig (difficulty : Difficulty) (r : RNG) : String :=
  "addsub_" ++ toString (quickAddSubtractA difficulty r) ++ "_"
    ++ toString (quickAddSubtractB difficulty r) ++ "_" ++ toString (coinFlip (r 0))

def quickAddSubtract (difficulty : Difficulty) (r : RNG) (s : RState) :
    Option Question × RState :=
  if difficulty = Difficulty.tough then (none, s)
  else
    let isAdd := coinFlip (r 0)
    let a := quickAddSubtractA difficulty r
    let b := quickAddSubtractB difficulty r
    let signature := quickAddSubtractSig difficulty r
    if isRecent signature s then (none, s)
    else
      let s2 := addToRecent MAX_RECENT signature s
      let correctAnswer := if isAdd then a + b else a - b
      let prompt :=
        if isAdd then formatNumber a ++ " + " ++ formatNumber b ++ " = ?"
        else formatNumber a ++ " - " ++ formatNumber b ++ " = ?"
      (some { id := generateId (r 3), type := QuestionType.accurate, difficulty := difficulty,
              prompt := prompt, correctAnswer := correctAnswer,
              meta := some { baseValue := a, percent := none, secondValue := some b,
                             operation := if isAdd then "addition" else "subtraction" } }, s2)

/-! Template 17: `revenuePerEmployeeEstimate`. Slots: 0 revenue, 1 employees, 2 id. -/

def revenuePerEmployeeRevenue (difficulty : Difficulty) (r : RNG) : ℚ :=
  match difficulty with
  | Difficulty.easy =>
      randomChoice [12000000, 24000000, 36000000, 48000000, 60000000] 0 (r 0)
  | Difficulty.medium =>
      randomChoice [78000000, 156000000, 234000000, 312000000, 468000000] 0 (r 0)
  | Difficulty.tough =>
      randomChoice [567000000, 892000000, 1234000000, 2345000000, 3456000000] 0 (r 0)

def revenuePerEmployeeEmployees (difficulty : Difficulty) (r : RNG) : ℚ :=
  match difficulty with
  | Difficulty.easy => randomChoice [100, 200, 300, 400, 500] 0 (r 1)
  | Difficulty.medium => randomChoice [650, 850, 1200, 1500, 1800, 2400] 0 (r 1)
  | Difficulty.tough => randomChoice [4500, 6700, 8900, 12000, 15000, 23000] 0 (r 1)

def revenuePerEmployeeEstimateSig (difficulty : Difficulty) (r : RNG) : String :=
  "rev_emp_" ++ toString (revenuePerEmployeeRevenue difficulty r) ++ "_"
    ++ toString (revenuePerEmployeeEmployees difficulty r)

def revenuePerEmployeeEstimate (difficulty : Difficulty) (r : RNG) (s : RState) :
    Option Question × RState :=
  let revenue := revenuePerEmployeeRevenue difficulty r
  let employees := revenuePerEmployeeEmployees difficulty r
  let signature := revenuePerEmployeeEstimateSig difficulty r
  if isRecent signature s then (none, s)
  else
    let s2 := addToRecent MAX_RECENT signature s
    (some { id := generateId (r 2), type := QuestionType.estimate, difficulty := difficulty,
            prompt := "Company revenue: " ++ formatCurrency revenue ++ ". Employees: "
              ++ formatNumber employees ++ ". Estimate revenue per employee.",
            correctAnswer := revenue / employees,
            meta := some { baseValue := revenue, percent := none,
                           secondValue := some employees,
                           operation := "rev_per_employee" } }, s2)

/-! Template 18: `valuationMultipleEstimate`. Slots: 0 revenue, 1 multiple, 2 id. -/

def valuationMultipleRevenue (difficulty : Difficulty) (r : RNG) : ℚ :=
  match difficulty with
  | Difficulty.easy =>
      randomChoice [10000000, 25000000, 50000000, 100000000, 200000000] 0 (r 0)
  | Difficulty.medium =>
      randomChoice [34000000, 67000000, 89000000, 123000000, 178000000, 234000000] 0 (r 0)
  | Difficulty.tough =>
      randomChoice [156000000, 278000000, 389000000, 456000000, 567000000, 789000000] 0 (r 0)

def valuationMultipleMultiple (difficulty : Difficulty) (r : RNG) : ℚ :=
  match difficulty with
  | Difficulty.easy => randomChoice [3, 5, 8, 10] 0 (r 1)
  | Difficulty.medium => randomChoice [4, 6, 7, 9, 12] 0 (r 1)
  | Difficulty.tough => randomChoice [5.5, 7.5, 8.5, 11, 13, 15] 0 (r 1)

def valuationMultipleEstimateSig (difficulty : Difficulty) (r : RNG) : String :=
  "valuation_" ++ toString (valuationMultipleRevenue difficulty r) ++ "_"
    ++ toString (valuationMultipleMultiple difficulty r)

def valuationMultipleEstimate (difficulty : Difficulty) (r : RNG) (s : RState) :
    Option Question × RState :=
  let revenue := valuationMultipleRevenue difficulty r
  let multiple := valuationMultipleMultiple difficulty r
  let signature := valuationMultipleEstimateSig difficulty r
  if isRecent signature s then (none, s)
  else
    let s2 := addToRecent MAX_RECENT signature s
    (some { id := generateId (r 2), type := QuestionType.estimate, difficulty := difficulty,
            prompt := "Revenue: " ++ formatCurrency revenue ++ ". At " ++ toString multiple
              ++ "x revenue multiple, estimate company value.",
            correctAnswer := revenue * multiple,
            meta := some { baseValue := revenue, percent := none,
                           secondValue := some multiple, operation := "valuation" } }, s2)

end V2

end QGen

namespace QGen

namespace V2

/-- The variant-2 template catalog. -/
inductive Tmpl where
  | percentOfNumberPrecise
  | percentOfNumberEstimate
  | multiplicationPrecise
  | divisionPrecise
  | profitMarginPrecise
  | profitMarginEstimate
  | perUnitPrecise
  | priceChangePrecise
  | marketShareEstimate
  | growthPrecise
  | growthEstimate
  | breakEvenPrecise
  | reversePercentPrecise
  | costStructurePrecise
  | compoundChangePrecise
  | quickAddSubtract
  | revenuePerEmployeeEstimate
  | valuationMultipleEstimate
deriving DecidableEq, Repr

def runTemplate : Tmpl → Difficulty → RNG → RState → Option Question × RState
  | Tmpl.percentOfNumberPrecise, d, r, s => percentOfNumberPrecise d r s
  | Tmpl.percentOfNumberEstimate, d, r, s => percentOfNumberEstimate d r s
  | Tmpl.multiplicationPrecise, d, r, s => multiplicationPrecise d r s
  | Tmpl.divisionPrecise, d, r, s => divisionPrecise d r s
  | Tmpl.profitMarginPrecise, d, r, s => profitMarginPrecise d r s
  | Tmpl.profitMarginEstimate, d, r, s => profitMarginEstimate d r s
  | Tmpl.perUnitPrecise, d, r, s => perUnitPrecise d r s
  | Tmpl.priceChangePrecise, d, r, s => priceChangePrecise d r s
  | Tmpl.marketShareEstimate, d, r, s => marketShareEstimate d r s
  | Tmpl.growthPrecise, d, r, s => growthPrecise d r s
  | Tmpl.growthEstimate, d, r, s => growthEstimate d r s
  | Tmpl.breakEvenPrecise, d, r, s => breakEvenPrecise d r s
  | Tmpl.reversePercentPrecise, d, r, s => reversePercentPrecise d r s
  | Tmpl.costStructurePrecise, d, r, s => costStructurePrecise d r s
  | Tmpl.compoundChangePrecise, d, r, s => compoundChangePrecise d r s
  | Tmpl.quickAddSubtract, d, r, s => quickAddSubtract d r s
  | Tmpl.revenuePerEmployeeEstimate, d, r, s => revenuePerEmployeeEstimate d r s
  | Tmpl.valuationMultipleEstimate, d, r, s => valuationMultipleEstimate d r s

/-- The question type each variant-2 template hard-codes in its result. -/
def tmplType : Tmpl → QuestionType
  | Tmpl.percentOfNumberEstimate => QuestionType.estimate
  | Tmpl.profitMarginEstimate => QuestionType.estimate
  | Tmpl.marketShareEstimate => QuestionType.estimate
  | Tmpl.growthEstimate => QuestionType.estimate
  | Tmpl.revenuePerEmployeeEstimate => QuestionType.estimate
  | Tmpl.valuationMultipleEstimate => QuestionType.estimate
  | _ => QuestionType.accurate

/-- The signature each variant-2 template computes from its drawn operands;
`none` on the difficulty-gated refusal paths. -/
def sigOf : Tmpl → Difficulty → RNG → Option String
  | Tmpl.percentOfNumberPrecise, d, r => some (percentOfNumberPreciseSig d r)
  | Tmpl.percentOfNumberEstimate, d, r => some (percentOfNumberEstimateSig d r)
  | Tmpl.multiplicationPrecise, d, r => some (multiplicationPreciseSig d r)
  | Tmpl.divisionPrecise, d, r => some (divisionPreciseSig d r)
  | Tmpl.profitMarginPrecise, d, r => some (profitMarginPreciseSig d r)
  | Tmpl.profitMarginEstimate, d, r => some (profitMarginEstimateSig d r)
  | Tmpl.perUnitPrecise, d, r => some (perUnitPreciseSig d r)
  | Tmpl.priceChangePrecise, d, r => some (priceChangePreciseSig d r)
  | Tmpl.marketShareEstimate, d, r => some (marketShareEstimateSig d r)
  | Tmpl.growthPrecise, d, r => some (growthPreciseSig d r)
  | Tmpl.growthEstimate, d, r => some (growthEstimateSig d r)
  | Tmpl.breakEvenPrecise, d, r => some (breakEvenPreciseSig d r)
  | Tmpl.reversePercentPrecise, d, r => some (reversePercentPreciseSig d r)
  | Tmpl.costStructurePrecise, d, r => some (costStructurePreciseSig d r)
  | Tmpl.compoundChangePrecise, d, r =>
      if d = Difficulty.easy then none else some (compoundChangePreciseSig d r)
  | Tmpl.quickAddSubtract, d, r =>
      if d = Difficulty.tough then none else some (quickAddSubtractSig d r)
  | Tmpl.revenuePerEmployeeEstimate, d, r => some (revenuePerEmployeeEstimateSig d r)
  | Tmpl.valuationMultipleEstimate, d, r => some (valuationMultipleEstimateSig d r)

/-- The "precise" template pool; break-even and compound-change join it for
non-easy difficulties. -/
def preciseTemplates (difficulty : Difficulty) : List Tmpl :=
  let templates : List Tmpl :=
    [Tmpl.percentOfNumberPrecise, Tmpl.multiplicationPrecise, Tmpl.divisionPrecise,
     Tmpl.profitMarginPrecise, Tmpl.perUnitPrecise, Tmpl.priceChangePrecise,
     Tmpl.growthPrecise, Tmpl.reversePercentPrecise, Tmpl.costStructurePrecise,
     Tmpl.quickAddSubtract]
  if difficulty ≠ Difficulty.easy then
    templates ++ [Tmpl.breakEvenPrecise, Tmpl.compoundChangePrecise]
  else templates

def estimateTemplates : List Tmpl :=
  [Tmpl.percentOfNumberEstimate, Tmpl.profitMarginEstimate, Tmpl.marketShareEstimate,
   Tmpl.growthEstimate, Tmpl.revenuePerEmployeeEstimate, Tmpl.valuationMultipleEstimate]

/-- Models `generatePreciseQuestion(difficulty)` (oracle slot 0 picks the
template, the template reads the following slots). -/
def generatePreciseQuestion (difficulty : Difficulty) (r : RNG) (s : RState) :
    Option Question × RState :=
  let t := randomChoice (preciseTemplates difficulty) Tmpl.percentOfNumberPrecise (r 0)
  runTemplate t difficulty (shiftRNG r 1) s

/-- Models `generateEstimateQuestion(difficulty)`. -/
def generateEstimateQuestion (difficulty : Difficulty) (r : RNG) (s : RState) :
    Option Question × RState :=
  let t := randomChoice estimateTemplates Tmpl.percentOfNumberEstimate (r 0)
  runTemplate t difficulty (shiftRNG r 1) s

def maxAttempts : Nat := 50

/-- The retry loop of variant-2 `generateQuestion`. -/
def attemptLoop (ty : QuestionType) (d : Difficulty) (ρ : Nat → RNG) :
    Nat → Nat → RState → Option Question × RState
  | 0, _, s => (none, s)
  | Nat.succ fuel, attempt, s =>
    let res :=
      if ty = QuestionType.accurate then generatePreciseQuestion d (ρ attempt) s
      else generateEstimateQuestion d (ρ attempt) s
    match res with
    | (some q, s2) => (some q, s2)
    | (none, s2) => attemptLoop ty d ρ fuel (attempt + 1) s2

/-- Models variant-2 `generateQuestion(type, difficulty)`: 50 attempts, then
a fallback that always draws from `PRECISE_EASY_BASES` and
`PRECISE_EASY_PERCENTAGES`, whatever the requested difficulty. -/
def generateQuestion (ty : QuestionType) (d : Difficulty) (ρ : Nat → RNG) (s : RState) :
    Question × RState :=
  match attemptLoop ty d ρ maxAttempts 0 s with
  | (some q, s2) => (q, s2)
  | (none, s2) =>
    let rf := ρ maxAttempts
    let base := randomChoice PRECISE_EASY_BASES 0 (rf 0)
    let pct := randomChoice PRECISE_EASY_PERCENTAGES 0 (rf 1)
    ({ id := generateId (rf 2), type := ty, difficulty := d,
       prompt := "What is " ++ toString pct ++ "% of " ++ formatNumber base ++ "?",
       correctAnswer := base * pct / 100,
       meta := some { baseValue := base, percent := some pct, secondValue := none,
                      operation := "percent" } }, s2)

end V2

end QGen

namespace QGen

/-- Spec-side definition for answer-reproducibility: re-apply the operation
named in `meta` to the operands stored in `meta` (`baseValue`, `percent`,
`secondValue`), following each template's formula; `none` when the
operation tag is unknown. -/
def recomputeAnswer (m : QMeta) : Option ℚ :=
  match m.operation, m.percent, m.secondValue with
  | "percent", some p, _ => some (m.baseValue * p / 100)
  | "reverse_percent", some p, _ => some (m.baseValue * 100 / p)
  | "multiplication", _, some b => some (m.baseValue * b)
  | "division", _, some b => some (m.baseValue / b)
  | "margin", some p, _ => some (m.baseValue * p / 100)
  | "increase", some p, _ => some (m.baseValue * (1 + p / 100))
  | "decrease", some p, _ => some (m.baseValue * (1 - p / 100))
  | "per_unit", _, some b => some (m.baseValue / b)
  | "total_from_unit", _, some b => some (m.baseValue * b)
  | "market_share", some p, _ => some (m.baseValue * p / 100)
  | "growth", some p, _ => some (m.baseValue * (1 + p / 100))
  | "break_even", _, some b => some ((⌈m.baseValue / b⌉ : ℤ) : ℚ)
  | "large_percent", some p, _ => some (m.baseValue * p / 100)
  | _, _, _ => none

/-- The variant-1 templates whose `meta` determines `correctAnswer`: all but
`costStructure` (profit-vs-costs coin not recorded), `compoundPercentage`
(second percentage and direction pattern not recorded), `weightedAverage`
(weight not recorded) and `multiYearGrowth` (year count not recorded). -/
def reproducibleTmpl : V1.Tmpl → Bool
  | V1.Tmpl.costStructure => false
  | V1.Tmpl.compoundPercentage => false
  | V1.Tmpl.weightedAverage => false
  | V1.Tmpl.multiYearGrowth => false
  | _ => true

end QGen

namespace QGen

/-- The uniform behavioural contract of a variant-1 template: when its
signature is gated off, it refuses with the state untouched; when the
signature is already recent, it refuses with the state untouched; otherwise
it returns a question carrying the requested type and difficulty and
inserts exactly its signature, and (for the templates whose `meta`
determines the answer) the answer is recomputable from `meta`. -/
def TmplSpec1 (t : V1.Tmpl) : Prop :=
  ∀ (d : Difficulty) (ty : QuestionType) (r : RNG) (s : RState),
    (V1.sigOf t d ty r = none → V1.runTemplate t d ty r s = (none, s))
    ∧ (∀ sig, V1.sigOf t d ty r = some sig →
        (isRecent sig s = true → V1.runTemplate t d ty r s = (none, s))
        ∧ (isRecent sig s = false →
            ∃ q, V1.runTemplate t d ty r s = (some q, addToRecent V1.MAX_RECENT sig s)
              ∧ q.type = ty ∧ q.difficulty = d
              ∧ (reproducibleTmpl t = true →
                  ∃ m, q.meta = some m ∧ recomputeAnswer m = some q.correctAnswer)))

/-- The uniform behavioural contract of a variant-2 template (these are
keyed by difficulty only and hard-code their question type). -/
def TmplSpec2 (t : V2.Tmpl) : Prop :=
  ∀ (d : Difficulty) (r : RNG) (s : RState),
    (V2.sigOf t d r = none → V2.runTemplate t d r s = (none, s))
    ∧ (∀ sig, V2.sigOf t d r = some sig →
        (isRecent sig s = true → V2.runTemplate t d r s = (none, s))
        ∧ (isRecent sig s = false →
            ∃ q, V2.runTemplate t d r s = (some q, addToRecent V2.MAX_RECENT sig s)
              ∧ q.type = V2.tmplType t ∧ q.difficulty = d))

/-- Case analysis of `addToRecent` used by C7. -/
theorem addToRecent_spec (m : Nat) (sig : String) (s : RState) (hm : 0 < m)
    (hs : s.length ≤ m) :
    (addToRecent m sig s).length ≤ m
    ∧ (sig ∈ s → addToRecent m sig s = s)
    ∧ (sig ∉ s → s.length < m → addToRecent m sig s = s ++ [sig])
    ∧ (sig ∉ s → s.length = m → addToRecent m sig s = s.tail ++ [sig]) := by
  by_cases hmem : sig ∈ s
  · have hres : addToRecent m sig s = s := by
      simp only [addToRecent, if_pos hmem]
      rw [if_neg (not_lt.mpr hs)]
    rw [hres]
    exact ⟨hs, fun _ => rfl, fun h => absurd hmem h, fun h => absurd hmem h⟩
  · rcases lt_or_eq_of_le hs with hlt | heq
    · have hng : ¬ (s ++ [sig]).length > m := by
        simp only [List.length_append, List.length_singleton]
        omega
      have hres : addToRecent m sig s = s ++ [sig] := by
        simp only [addToRecent, if_neg hmem]
        rw [if_neg hng]
      rw [hres]
      refine ⟨?_, fun h => absurd h hmem, fun _ _ => rfl, fun _ h => absurd h (ne_of_lt hlt)⟩
      simp only [List.length_append, List.length_singleton]
      omega
    · have hne : s ≠ [] := by
        intro h
        rw [h] at heq
        simp at heq
        omega
      have htail : (s ++ [sig]).tail = s.tail ++ [sig] := by
        cases s with
        | nil => exact absurd rfl hne
        | cons a t => rfl
      have hg : (s ++ [sig]).length > m := by
        simp only [List.length_append, List.length_singleton]
        omega
      have hres : addToRecent m sig s = s.tail ++ [sig] := by
        simp only [addToRecent, if_neg hmem]
        rw [if_pos hg, htail]
      rw [hres]
      refine ⟨?_, fun h => absurd h hmem,
        fun _ h => absurd heq (ne_of_lt h), fun _ _ => rfl⟩
      cases s with
      | nil => exact absurd rfl hne
      | cons a t =>
        simp only [List.tail_cons, List.length_append, List.length_singleton]
        simp only [List.length_cons] at heq
        omega

/-- C2: estimate-mode grading accepts exactly the inclusive band
`[correctAnswer * 0.9, correctAnswer * 1.1]`, always computes
`errorPercent = |userAnswer - correctAnswer| / correctAnswer * 100`
(stated for every nonzero `correctAnswer`; the zero case is C9), and the
four concrete cases at `correctAnswer = 1000` behave as specified
(900 correct with 10% error, 899 incorrect, 1100 correct, 1101 incorrect). -/
theorem checkAnswer_estimate_band :
    (∀ u c : ℚ, ((checkAnswer u c QuestionType.estimate).isCorrect = true ↔
        c * 0.9 ≤ u ∧ u ≤ c * 1.1))
    ∧ (∀ u c : ℚ, c ≠ 0 →
        (checkAnswer u c QuestionType.estimate).errorPercent
          = some (ErrorValue.finite (|u - c| / c * 100)))
    ∧ checkAnswer 900 1000 QuestionType.estimate
        = { isCorrect := true, errorPercent := some (ErrorValue.finite 10) }
    ∧ (checkAnswer 899 1000 QuestionType.estimate).isCorrect = false
    ∧ (checkAnswer 1100 1000 QuestionType.estimate).isCorrect = true
    ∧ (checkAnswer 1101 1000 QuestionType.estimate).isCorrect = false := by
  have hiff : ∀ u c : ℚ, ((checkAnswer u c QuestionType.estimate).isCorrect = true ↔
      c * 0.9 ≤ u ∧ u ≤ c * 1.1) := by
    intro u c
    simp only [checkAnswer, TOLERANCE]
    rw [if_neg (by simp : ¬ (QuestionType.estimate = QuestionType.accurate))]
    simp only [decide_eq_true_eq]
    norm_num
  have herr : ∀ u c : ℚ, c ≠ 0 →
      (checkAnswer u c QuestionType.estimate).errorPercent
        = some (ErrorValue.finite (|u - c| / c * 100)) := by
    intro u c hc
    simp [checkAnswer, divIEEE, scaleEV, hc]
  refine ⟨hiff, herr, ?_, ?_, ?_, ?_⟩
  · have h1 : (checkAnswer 900 1000 QuestionType.estimate).isCorrect = true :=
      (hiff 900 1000).mpr (by norm_num)
    have h2 := herr 900 1000 (by norm_num)
    have h3 : |(900 : ℚ) - 1000| / 1000 * 100 = 10 := by
      rw [show |(900 : ℚ) - 1000| = 100 by rw [abs_of_nonpos] <;> norm_num]
      norm_num
    rw [h3] at h2
    calc checkAnswer 900 1000 QuestionType.estimate
        = { isCorrect := (checkAnswer 900 1000 QuestionType.estimate).isCorrect,
            errorPercent := (checkAnswer 900 1000 QuestionType.estimate).errorPercent } := rfl
      _ = { isCorrect := true, errorPercent := some (ErrorValue.finite 10) } := by
          rw [h1, h2]
  · rw [Bool.eq_false_iff]
    intro h
    rw [hiff] at h
    rcases h with ⟨h1, h2⟩
    norm_num at h1
  · exact (hiff 1100 1000).mpr (by norm_num)
  · rw [Bool.eq_false_iff]
    intro h
    rw [hiff] at h
    rcases h with ⟨h1, h2⟩
    norm_num at h2

/-- Witness for C2's nonzero-denominator clause at `u = 900`, `c = 1000`. -/
theorem checkAnswer_estimate_band_w :
    (checkAnswer 900 1000 QuestionType.estimate).errorPercent
      = some (ErrorValue.finite (|(900 : ℚ) - 1000| / 1000 * 100)) :=
  checkAnswer_estimate_band.2.1 900 1000 (by norm_num)

/-- C3: accurate-mode grading accepts exactly
`|userAnswer - correctAnswer| <= max(0.5, correctAnswer * 0.001)`, reports
no error percent, always accepts the exactly correct answer, and rejects
`correctAnswer * 1.5` whenever `correctAnswer > 1` (the exact threshold at
which the tolerance is exceeded). -/
theorem checkAnswer_accurate_tolerance :
    (∀ u c : ℚ, ((checkAnswer u c QuestionType.accurate).isCorrect = true ↔
        |u - c| ≤ max 0.5 (c * 0.001)))
    ∧ (∀ u c : ℚ, (checkAnswer u c QuestionType.accurate).errorPercent = none)
    ∧ (∀ c : ℚ, (checkAnswer c c QuestionType.accurate).isCorrect = true)
    ∧ (∀ c : ℚ, 1 < c → (checkAnswer (c * 1.5) c QuestionType.accurate).isCorrect = false) := by
  have hiff : ∀ u c : ℚ, ((checkAnswer u c QuestionType.accurate).isCorrect = true ↔
      |u - c| ≤ max 0.5 (c * 0.001)) := by
    intro u c
    simp only [checkAnswer, if_pos rfl, decide_eq_true_eq]
    norm_num [le_max_iff]
  refine ⟨hiff, fun u c => rfl, ?_, ?_⟩
  · intro c
    rw [hiff]
    simp only [sub_self, abs_zero]
    exact le_max_of_le_left (by norm_num)
  · intro c hc
    rw [Bool.eq_false_iff]
    intro h
    rw [hiff] at h
    have habs : |c * 1.5 - c| = c * 0.5 := by
      rw [show c * 1.5 - c = c * 0.5 by ring]
      exact abs_of_pos (by nlinarith)
    rw [habs] at h
    have hmax : max (0.5 : ℚ) (c * 0.001) < c * 0.5 :=
      max_lt (by nlinarith) (by nlinarith)
    exact absurd h (not_le.mpr hmax)

/-- Witness for C3 at `c = 7` (exact answer accepted) and `c = 2`
(1.5x answer rejected). -/
theorem checkAnswer_accurate_tolerance_w :
    (checkAnswer 7 7 QuestionType.accurate).isCorrect = true
    ∧ (checkAnswer (2 * 1.5) 2 QuestionType.accurate).isCorrect = false :=
  ⟨checkAnswer_accurate_tolerance.2.2.1 7,
   checkAnswer_accurate_tolerance.2.2.2 2 (by norm_num)⟩

/-- C10: for every negative `correctAnswer` the estimate band inverts
(`0.9 * c > 1.1 * c`), so estimate-mode grading rejects every answer,
including the exactly correct one. -/
theorem checkAnswer_estimate_negative_rejects :
    ∀ u c : ℚ, c < 0 → (checkAnswer u c QuestionType.estimate).isCorrect = false := by
  intro u c hc
  rw [Bool.eq_false_iff]
  intro h
  simp only [checkAnswer, TOLERANCE] at h
  rw [if_neg (by simp : ¬ (QuestionType.estimate = QuestionType.accurate))] at h
  simp only [decide_eq_true_eq] at h
  rcases h with ⟨h1, h2⟩
  nlinarith

/-- Witness for C10 at `u = c = -10`: the exactly correct answer is
rejected. -/
theorem checkAnswer_estimate_negative_rejects_w :
    (checkAnswer (-10) (-10) QuestionType.estimate).isCorrect = false :=
  checkAnswer_estimate_negative_rejects (-10) (-10) (by norm_num)

/-- C9 counterexample: the grader does NOT guard `correctAnswer = 0`; at
`userAnswer = 1`, `correctAnswer = 0` the estimate-mode error percent is
the non-finite IEEE value `Infinity`. -/
theorem checkAnswer_zero_nonfinite_cex :
    (checkAnswer 1 0 QuestionType.estimate).errorPercent = some ErrorValue.posInf := by
  simp [checkAnswer, divIEEE, scaleEV]

/-- C9 (amended): the grader has no defensive guard for
`correctAnswer = 0`: in estimate mode it divides by `correctAnswer`
unconditionally, so `errorPercent` is IEEE `Infinity` for any nonzero
user answer, `NaN` for user answer 0, and a finite value exactly when
`correctAnswer` is nonzero. -/
theorem checkAnswer_zero_errorPercent :
    (∀ u : ℚ, u ≠ 0 →
        (checkAnswer u 0 QuestionType.estimate).errorPercent = some ErrorValue.posInf)
    ∧ (checkAnswer 0 0 QuestionType.estimate).errorPercent = some ErrorValue.nan
    ∧ (∀ u c : ℚ, c ≠ 0 → ∃ e : ℚ,
        (checkAnswer u c QuestionType.estimate).errorPercent
          = some (ErrorValue.finite e)) := by
  refine ⟨?_, by simp [checkAnswer, divIEEE, scaleEV], ?_⟩
  · intro u hu
    simp [checkAnswer, divIEEE, scaleEV, sub_zero, abs_eq_zero, hu]
  · intro u c hc
    refine ⟨|u - c| / c * 100, ?_⟩
    simp [checkAnswer, divIEEE, scaleEV, hc]

/-- Witness for C9's amended theorem at `u = 5`, `c = 0`. -/
theorem checkAnswer_zero_errorPercent_w :
    (checkAnswer 5 0 QuestionType.estimate).errorPercent = some ErrorValue.posInf :=
  checkAnswer_zero_errorPercent.1 5 (by norm_num)

/-- C7: the recency set holds at most `MAX_RECENT` signatures (50 in
variant 1, 100 in variant 2) after any operation, given it was within the
bound before; a present signature is not moved (insertion order is
recency order, no LRU-on-read), a fresh signature is appended, and when an
insertion would exceed the bound exactly the oldest-inserted signature
(the head) is evicted — FIFO. `clearRecentQuestions` empties the set. -/
theorem addToRecent_bound_fifo :
    V1.MAX_RECENT = 50 ∧ V2.MAX_RECENT = 100
    ∧ (∀ (m : Nat) (sig : String) (s : RState), 0 < m → s.length ≤ m →
        ((addToRecent m sig s).length ≤ m
         ∧ (sig ∈ s → addToRecent m sig s = s)
         ∧ (sig ∉ s → s.length < m → addToRecent m sig s = s ++ [sig])
         ∧ (sig ∉ s → s.length = m → addToRecent m sig s = s.tail ++ [sig])))
    ∧ (∀ s : RState, (clearRecentQuestions s).length = 0) :=
  ⟨rfl, rfl, addToRecent_spec, fun _ => rfl⟩

/-- Witness for C7: appending a fresh signature below the bound, and FIFO
eviction at a full set of bound 2. -/
theorem addToRecent_bound_fifo_w :
    ((addToRecent 50 "sig_a" ["sig_b"]).length ≤ 50
      ∧ addToRecent 50 "sig_a" ["sig_b"] = ["sig_b", "sig_a"])
    ∧ addToRecent 2 "sig_c" ["sig_a", "sig_b"] = ["sig_b", "sig_c"] := by
  have h1 := addToRecent_bound_fifo.2.2.1 50 "sig_a" ["sig_b"] (by norm_num) (by norm_num)
  have h2 := addToRecent_bound_fifo.2.2.1 2 "sig_c" ["sig_a", "sig_b"] (by norm_num)
    (by norm_num)
  refine ⟨⟨h1.1, ?_⟩, ?_⟩
  · rw [h1.2.2.1 (by decide) (by norm_num)]
    rfl
  · rw [h2.2.2.2 (by decide) (by norm_num)]
    rfl

/-! ### Per-template behaviour lemmas, variant 1 -/

theorem randomChoice_mem {α : Type} (l : List α) (dflt : α) (n : Nat) (h : l ≠ []) :
    randomChoice l dflt n ∈ l := by
  have hlen : 0 < l.length := List.length_pos.mpr h
  have hmod : n % l.length < l.length := Nat.mod_lt _ hlen
  unfold randomChoice
  rw [List.getD_eq_getElem l dflt hmod]
  exact List.getElem_mem hmod

theorem recompute_reverse_percent (b p : ℚ) :
    recomputeAnswer ⟨b, some p, none, "reverse_percent"⟩ = some (b * 100 / p) := rfl

theorem recompute_division (b sv : ℚ) :
    recomputeAnswer ⟨b, none, some sv, "division"⟩ = some (b / sv) := rfl

theorem recompute_increase (b p : ℚ) :
    recomputeAnswer ⟨b, some p, none, "increase"⟩ = some (b * (1 + p / 100)) := rfl

theorem recompute_decrease (b p : ℚ) :
    recomputeAnswer ⟨b, some p, none, "decrease"⟩ = some (b * (1 - p / 100)) := rfl

theorem recompute_per_unit (b sv : ℚ) :
    recomputeAnswer ⟨b, none, some sv, "per_unit"⟩ = some (b / sv) := rfl

theorem recompute_total_from_unit (b sv : ℚ) :
    recomputeAnswer ⟨b, none, some sv, "total_from_unit"⟩ = some (b * sv) := rfl

namespace V1

theorem divisionDivisor_pos (d : Difficulty) (r : RNG) : 0 < divisionDivisor d r := by
  cases d with
  | easy =>
      exact (by decide : ∀ x ∈ ([2, 4, 5, 8, 10, 20, 25, 50] : List ℚ), 0 < x) _
        (randomChoice_mem _ 0 _ (by simp))
  | medium =>
      exact (by decide : ∀ x ∈ ([3, 6, 7, 8, 9, 12, 15, 16, 18, 24] : List ℚ), 0 < x) _
        (randomChoice_mem _ 0 _ (by simp))
  | tough =>
      exact (by decide :
          ∀ x ∈ ([7, 8, 9, 11, 12, 13, 14, 15, 16, 17, 18, 19, 21, 23] : List ℚ), 0 < x) _
        (randomChoice_mem _ 0 _ (by simp))

theorem reversePercentagePct_pos (d : Difficulty) (r : RNG) :
    0 < reversePercentagePct d r := by
  cases d with
  | easy =>
      exact (by decide : ∀ x ∈ ([10, 20, 25, 50] : List ℚ), 0 < x) _
        (randomChoice_mem _ 0 _ (by simp))
  | medium =>
      exact (by decide : ∀ x ∈ ([8, 12, 15, 20, 24, 30, 40] : List ℚ), 0 < x) _
        (randomChoice_mem _ 0 _ (by simp))
  | tough =>
      exact (by decide : ∀ x ∈ ([6, 8, 12, 15, 18, 22, 35] : List ℚ), 0 < x) _
        (randomChoice_mem _ 0 _ (by simp))

theorem perUnitUnits_pos (d : Difficulty) (r : RNG) : 0 < perUnitUnits d r := by
  cases d with
  | easy =>
      exact (by decide : ∀ x ∈ ([10, 20, 25, 40, 50, 100, 200, 250, 500, 1000] : List ℚ),
          0 < x) _ (randomChoice_mem _ 0 _ (by simp))
  | medium =>
      exact (by decide : ∀ x ∈ ([24, 36, 48, 72, 96, 120, 150, 180, 240, 360, 480, 720, 1200,
          1500, 2400] : List ℚ), 0 < x) _ (randomChoice_mem _ 0 _ (by simp))
  | tough =>
      exact (by decide : ∀ x ∈ ([137, 189, 234, 312, 456, 567, 678, 789, 892, 1230, 1560, 1890,
          2340, 3450, 4560] : List ℚ), 0 < x) _ (randomChoice_mem _ 0 _ (by simp))

theorem percentOfNumber_ok : TmplSpec1 Tmpl.percentOfNumber := by
  intro d ty r s
  refine ⟨fun h => by simp [sigOf] at h, fun sig hsig => ?_⟩
  simp only [sigOf, Option.some.injEq] at hsig
  subst hsig
  constructor
  · intro h
    simp only [runTemplate, percentOfNumber, h, if_true]
  · intro h
    simp only [runTemplate, percentOfNumber, h, Bool.false_eq_true, if_false]
    exact ⟨_, rfl, rfl, rfl, fun _ => ⟨_, rfl, rfl⟩⟩

theorem multiplication_ok : TmplSpec1 Tmpl.multiplication := by
  intro d ty r s
  refine ⟨fun h => by simp [sigOf] at h, fun sig hsig => ?_⟩
  simp only [sigOf, Option.some.injEq] at hsig
  subst hsig
  constructor
  · intro h
    simp only [runTemplate, multiplication, h, if_true]
  · intro h
    simp only [runTemplate, multiplication, h, Bool.false_eq_true, if_false]
    exact ⟨_, rfl, rfl, rfl, fun _ => ⟨_, rfl, rfl⟩⟩

theorem profitMargin_ok : TmplSpec1 Tmpl.profitMargin := by
  intro d ty r s
  refine ⟨fun h => by simp [sigOf] at h, fun sig hsig => ?_⟩
  simp only [sigOf, Option.some.injEq] at hsig
  subst hsig
  constructor
  · intro h
    simp only [runTemplate, profitMargin, h, if_true]
  · intro h
    simp only [runTemplate, profitMargin, h, Bool.false_eq_true, if_false]
    exact ⟨_, rfl, rfl, rfl, fun _ => ⟨_, rfl, rfl⟩⟩

theorem marketShare_ok : TmplSpec1 Tmpl.marketShare := by
  intro d ty r s
  refine ⟨fun h => by simp [sigOf] at h, fun sig hsig => ?_⟩
  simp only [sigOf, Option.some.injEq] at hsig
  subst hsig
  constructor
  · intro h
    simp only [runTemplate, marketShare, h, if_true]
  · intro h
    simp only [runTemplate, marketShare, h, Bool.false_eq_true, if_false]
    exact ⟨_, rfl, rfl, rfl, fun _ => ⟨_, rfl, rfl⟩⟩

theorem growthCalculation_ok : TmplSpec1 Tmpl.growthCalculation := by
  intro d ty r s
  refine ⟨fun h => by simp [sigOf] at h, fun sig hsig => ?_⟩
  simp only [sigOf, Option.some.injEq] at hsig
  subst hsig
  constructor
  · intro h
    simp only [runTemplate, growthCalculation, h, if_true]
  · intro h
    simp only [runTemplate, growthCalculation, h, Bool.false_eq_true, if_false]
    exact ⟨_, rfl, rfl, rfl, fun _ => ⟨_, rfl, rfl⟩⟩

theorem breakEvenTarget_ok : TmplSpec1 Tmpl.breakEvenTarget := by
  intro d ty r s
  refine ⟨fun h => by simp [sigOf] at h, fun sig hsig => ?_⟩
  simp only [sigOf, Option.some.injEq] at hsig
  subst hsig
  constructor
  · intro h
    simp only [runTemplate, breakEvenTarget, h, if_true]
  · intro h
    simp only [runTemplate, breakEvenTarget, h, Bool.false_eq_true, if_false]
    exact ⟨_, rfl, rfl, rfl, fun _ => ⟨_, rfl, rfl⟩⟩

end V1

end QGen

namespace QGen

namespace V1

theorem reversePercentage_ok : TmplSpec1 Tmpl.reversePercentage := by
  intro d ty r s
  refine ⟨fun h => by simp [sigOf] at h, fun sig hsig => ?_⟩
  simp only [sigOf, Option.some.injEq] at hsig
  subst hsig
  constructor
  · intro h
    simp only [runTemplate, reversePercentage, h, if_true]
  · intro h
    simp only [runTemplate, reversePercentage, h, Bool.false_eq_true, if_false]
    refine ⟨_, rfl, rfl, rfl, fun _ => ⟨_, rfl, ?_⟩⟩
    rw [recompute_reverse_percent]
    refine congrArg some ?_
    have hp : reversePercentagePct d r ≠ 0 := ne_of_gt (reversePercentagePct_pos d r)
    field_simp

theorem division_ok : TmplSpec1 Tmpl.division := by
  intro d ty r s
  refine ⟨fun h => by simp [sigOf] at h, fun sig hsig => ?_⟩
  simp only [sigOf, Option.some.injEq] at hsig
  subst hsig
  constructor
  · intro h
    simp only [runTemplate, division, h, if_true]
  · intro h
    simp only [runTemplate, division, h, Bool.false_eq_true, if_false]
    refine ⟨_, rfl, rfl, rfl, fun _ => ⟨_, rfl, ?_⟩⟩
    rw [recompute_division]
    refine congrArg some ?_
    have hp : divisionDivisor d r ≠ 0 := ne_of_gt (divisionDivisor_pos d r)
    field_simp

theorem costStructure_ok : TmplSpec1 Tmpl.costStructure := by
  intro d ty r s
  refine ⟨fun h => by simp [sigOf] at h, fun sig hsig => ?_⟩
  simp only [sigOf, Option.some.injEq] at hsig
  subst hsig
  constructor
  · intro h
    simp only [runTemplate, costStructure, h, if_true]
  · intro h
    simp only [runTemplate, costStructure, h, Bool.false_eq_true, if_false]
    exact ⟨_, rfl, rfl, rfl, fun hrep => by simp [reproducibleTmpl] at hrep⟩

theorem priceChange_ok : TmplSpec1 Tmpl.priceChange := by
  intro d ty r s
  refine ⟨fun h => by simp [sigOf] at h, fun sig hsig => ?_⟩
  simp only [sigOf, Option.some.injEq] at hsig
  subst hsig
  constructor
  · intro h
    simp only [runTemplate, priceChange, h, if_true]
  · intro h
    cases hc : coinFlip (r 0) with
    | true =>
      simp only [runTemplate, priceChange, h, Bool.false_eq_true, if_false, hc, if_true]
      refine ⟨_, rfl, rfl, rfl, fun _ => ⟨_, rfl, ?_⟩⟩
      rw [recompute_increase]
      exact congrArg some (by ring)
    | false =>
      simp only [runTemplate, priceChange, h, Bool.false_eq_true, if_false, hc]
      refine ⟨_, rfl, rfl, rfl, fun _ => ⟨_, rfl, ?_⟩⟩
      rw [recompute_decrease]
      exact congrArg some (by ring)

theorem perUnitCalculation_ok : TmplSpec1 Tmpl.perUnitCalculation := by
  intro d ty r s
  refine ⟨fun h => by simp [sigOf] at h, fun sig hsig => ?_⟩
  simp only [sigOf, Option.some.injEq] at hsig
  subst hsig
  constructor
  · intro h
    simp only [runTemplate, perUnitCalculation, h, if_true]
  · intro h
    have hu : perUnitUnits d r ≠ 0 := ne_of_gt (perUnitUnits_pos d r)
    cases hc : coinFlip (r 4) with
    | true =>
      simp only [runTemplate, perUnitCalculation, h, Bool.false_eq_true, if_false, hc, if_true]
      refine ⟨_, rfl, rfl, rfl, fun _ => ⟨_, rfl, ?_⟩⟩
      rw [recompute_per_unit]
      refine congrArg some ?_
      field_simp
    | false =>
      simp only [runTemplate, perUnitCalculation, h, Bool.false_eq_true, if_false, hc]
      refine ⟨_, rfl, rfl, rfl, fun _ => ⟨_, rfl, ?_⟩⟩
      rw [recompute_total_from_unit]
      exact congrArg some (by ring)

theorem compoundPercentage_ok : TmplSpec1 Tmpl.compoundPercentage := by
  intro d ty r s
  by_cases hd : d = Difficulty.easy
  · subst hd
    refine ⟨fun _ => by simp [runTemplate, compoundPercentage], fun sig hsig => ?_⟩
    simp [sigOf] at hsig
  · constructor
    · intro hnone
      simp only [sigOf, if_neg hd] at hnone
      exact absurd hnone (by simp)
    · intro sig hsig
      simp only [sigOf, if_neg hd, Option.some.injEq] at hsig
      subst hsig
      constructor
      · intro h
        simp only [runTemplate, compoundPercentage, if_neg hd, h, if_true]
      · intro h
        simp only [runTemplate, compoundPercentage, if_neg hd, h, Bool.false_eq_true, if_false]
        exact ⟨_, rfl, rfl, rfl, fun hrep => by simp [reproducibleTmpl] at hrep⟩

theorem weightedAverage_ok : TmplSpec1 Tmpl.weightedAverage := by
  intro d ty r s
  by_cases hd : d = Difficulty.easy
  · subst hd
    refine ⟨fun _ => by simp [runTemplate, weightedAverage], fun sig hsig => ?_⟩
    simp [sigOf] at hsig
  · constructor
    · intro hnone
      simp only [sigOf, if_neg hd] at hnone
      exact absurd hnone (by simp)
    · intro sig hsig
      simp only [sigOf, if_neg hd, Option.some.injEq] at hsig
      subst hsig
      constructor
      · intro h
        simp only [runTemplate, weightedAverage, if_neg hd, h, if_true]
      · intro h
        simp only [runTemplate, weightedAverage, if_neg hd, h, Bool.false_eq_true, if_false]
        exact ⟨_, rfl, rfl, rfl, fun hrep => by simp [reproducibleTmpl] at hrep⟩

theorem largeNumberEstimate_ok : TmplSpec1 Tmpl.largeNumberEstimate := by
  intro d ty r s
  by_cases hg : ty = QuestionType.accurate ∧ d = Difficulty.easy
  · refine ⟨fun _ => by simp only [runTemplate, largeNumberEstimate, if_pos hg],
      fun sig hsig => ?_⟩
    simp only [sigOf, if_pos hg] at hsig
    exact absurd hsig (by simp)
  · constructor
    · intro hnone
      simp only [sigOf, if_neg hg] at hnone
      exact absurd hnone (by simp)
    · intro sig hsig
      simp only [sigOf, if_neg hg, Option.some.injEq] at hsig
      subst hsig
      constructor
      · intro h
        simp only [runTemplate, largeNumberEstimate, if_neg hg, h, if_true]
      · intro h
        simp only [runTemplate, largeNumberEstimate, if_neg hg, h, Bool.false_eq_true,
          if_false]
        exact ⟨_, rfl, rfl, rfl, fun _ => ⟨_, rfl, rfl⟩⟩

theorem multiYearGrowth_ok : TmplSpec1 Tmpl.multiYearGrowth := by
  intro d ty r s
  by_cases hd : d ≠ Difficulty.tough
  · refine ⟨fun _ => by simp only [runTemplate, multiYearGrowth, if_pos hd], fun sig hsig => ?_⟩
    simp only [sigOf, if_pos hd] at hsig
    exact absurd hsig (by simp)
  · constructor
    · intro hnone
      simp only [sigOf, if_neg hd] at hnone
      exact absurd hnone (by simp)
    · intro sig hsig
      simp only [sigOf, if_neg hd, Option.some.injEq] at hsig
      subst hsig
      constructor
      · intro h
        simp only [runTemplate, multiYearGrowth, if_neg hd, h, if_true]
      · intro h
        simp only [runTemplate, multiYearGrowth, if_neg hd, h, Bool.false_eq_true, if_false]
        exact ⟨_, rfl, rfl, rfl, fun hrep => by simp [reproducibleTmpl] at hrep⟩

/-- Every variant-1 template obeys the shared contract. -/
theorem runTemplate_spec1 (t : Tmpl) : TmplSpec1 t := by
  cases t with
  | percentOfNumber => exact percentOfNumber_ok
  | reversePercentage => exact reversePercentage_ok
  | multiplication => exact multiplication_ok
  | division => exact division_ok
  | profitMargin => exact profitMargin_ok
  | costStructure => exact costStructure_ok
  | priceChange => exact priceChange_ok
  | perUnitCalculation => exact perUnitCalculation_ok
  | marketShare => exact marketShare_ok
  | growthCalculation => exact growthCalculation_ok
  | breakEvenTarget => exact breakEvenTarget_ok
  | compoundPercentage => exact compoundPercentage_ok
  | weightedAverage => exact weightedAverage_ok
  | largeNumberEstimate => exact largeNumberEstimate_ok
  | multiYearGrowth => exact multiYearGrowth_ok

end V1

end QGen

namespace QGen

/-! ### Per-template behaviour lemmas, variant 2 -/

namespace V2

theorem percentOfNumberPrecise_ok : TmplSpec2 Tmpl.percentOfNumberPrecise := by
  intro d r s
  refine ⟨fun h => by simp [sigOf] at h, fun sig hsig => ?_⟩
  simp only [sigOf, Option.some.injEq] at hsig
  subst hsig
  constructor
  · intro h
    simp only [runTemplate, percentOfNumberPrecise, h, if_true]
  · intro h
    simp only [runTemplate, percentOfNumberPrecise, h, Bool.false_eq_true, if_false]
    exact ⟨_, rfl, rfl, rfl⟩

theorem percentOfNumberEstimate_ok : TmplSpec2 Tmpl.percentOfNumberEstimate := by
  intro d r s
  refine ⟨fun h => by simp [sigOf] at h, fun sig hsig => ?_⟩
  simp only [sigOf, Option.some.injEq] at hsig
  subst hsig
  constructor
  · intro h
    simp only [runTemplate, percentOfNumberEstimate, h, if_true]
  · intro h
    simp only [runTemplate, percentOfNumberEstimate, h, Bool.false_eq_true, if_false]
    exact ⟨_, rfl, rfl, rfl⟩

theorem multiplicationPrecise_ok : TmplSpec2 Tmpl.multiplicationPrecise := by
  intro d r s
  refine ⟨fun h => by simp [sigOf] at h, fun sig hsig => ?_⟩
  simp only [sigOf, Option.some.injEq] at hsig
  subst hsig
  constructor
  · intro h
    simp only [runTemplate, multiplicationPrecise, h, if_true]
  · intro h
    simp only [runTemplate, multiplicationPrecise, h, Bool.false_eq_true, if_false]
    exact ⟨_, rfl, rfl, rfl⟩

theorem divisionPrecise_ok : TmplSpec2 Tmpl.divisionPrecise := by
  intro d r s
  refine ⟨fun h => by simp [sigOf] at h, fun sig hsig => ?_⟩
  simp only [sigOf, Option.some.injEq] at hsig
  subst hsig
  constructor
  · intro h
    simp only [runTemplate, divisionPrecise, h, if_true]
  · intro h
    simp only [runTemplate, divisionPrecise, h, Bool.false_eq_true, if_false]
    exact ⟨_, rfl, rfl, rfl⟩

theorem profitMarginPrecise_ok : TmplSpec2 Tmpl.profitMarginPrecise := by
  intro d r s
  refine ⟨fun h => by simp [sigOf] at h, fun sig hsig => ?_⟩
  simp only [sigOf, Option.some.injEq] at hsig
  subst hsig
  constructor
  · intro h
    simp only [runTemplate, profitMarginPrecise, h, if_true]
  · intro h
    simp only [runTemplate, profitMarginPrecise, h, Bool.false_eq_true, if_false]
    exact ⟨_, rfl, rfl, rfl⟩

theorem profitMarginEstimate_ok : TmplSpec2 Tmpl.profitMarginEstimate := by
  intro d r s
  refine ⟨fun h => by simp [sigOf] at h, fun sig hsig => ?_⟩
  simp only [sigOf, Option.some.injEq] at hsig
  subst hsig
  constructor
  · intro h
    simp only [runTemplate, profitMarginEstimate, h, if_true]
  · intro h
    simp only [runTemplate, profitMarginEstimate, h, Bool.false_eq_true, if_false]
    exact ⟨_, rfl, rfl, rfl⟩

theorem perUnitPrecise_ok : TmplSpec2 Tmpl.perUnitPrecise := by
  intro d r s
  refine ⟨fun h => by simp [sigOf] at h, fun sig hsig => ?_⟩
  simp only [sigOf, Option.some.injEq] at hsig
  subst hsig
  constructor
  · intro h
    simp only [runTemplate, perUnitPrecise, h, if_true]
  · intro h
    cases hc : coinFlip (r 2) with
    | true =>
      simp only [runTemplate, perUnitPrecise, h, Bool.false_eq_true, if_false, hc, if_true]
      exact ⟨_, rfl, rfl, rfl⟩
    | false =>
      simp only [runTemplate, perUnitPrecise, h, Bool.false_eq_true, if_false, hc]
      exact ⟨_, rfl, rfl, rfl⟩

theorem priceChangePrecise_ok : TmplSpec2 Tmpl.priceChangePrecise := by
  intro d r s
  refine ⟨fun h => by simp [sigOf] at h, fun sig hsig => ?_⟩
  simp only [sigOf, Option.some.injEq] at hsig
  subst hsig
  constructor
  · intro h
    simp only [runTemplate, priceChangePrecise, h, if_true]
  · intro h
    simp only [runTemplate, priceChangePrecise, h, Bool.false_eq_true, if_false]
    exact ⟨_, rfl, rfl, rfl⟩

theorem marketShareEstimate_ok : TmplSpec2 Tmpl.marketShareEstimate := by
  intro d r s
  refine ⟨fun h => by simp [sigOf] at h, fun sig hsig => ?_⟩
  simp only [sigOf, Option.some.injEq] at hsig
  subst hsig
  constructor
  · intro h
    simp only [runTemplate, marketShareEstimate, h, if_true]
  · intro h
    simp only [runTemplate, marketShareEstimate, h, Bool.false_eq_true, if_false]
    exact ⟨_, rfl, rfl, rfl⟩

theorem growthPrecise_ok : TmplSpec2 Tmpl.growthPrecise := by
  intro d r s
  refine ⟨fun h => by simp [sigOf] at h, fun sig hsig => ?_⟩
  simp only [sigOf, Option.some.injEq] at hsig
  subst hsig
  constructor
  · intro h
    simp only [runTemplate, growthPrecise, h, if_true]
  · intro h
    simp only [runTemplate, growthPrecise, h, Bool.false_eq_true, if_false]
    exact ⟨_, rfl, rfl, rfl⟩

theorem growthEstimate_ok : TmplSpec2 Tmpl.growthEstimate := by
  intro d r s
  refine ⟨fun h => by simp [sigOf] at h, fun sig hsig => ?_⟩
  simp only [sigOf, Option.some.injEq] at hsig
  subst hsig
  constructor
  · intro h
    simp only [runTemplate, growthEstimate, h, if_true]
  · intro h
    simp only [runTemplate, growthEstimate, h, Bool.false_eq_true, if_false]
    exact ⟨_, rfl, rfl, rfl⟩

theorem breakEvenPrecise_ok : TmplSpec2 Tmpl.breakEvenPrecise := by
  intro d r s
  refine ⟨fun h => by simp [sigOf] at h, fun sig hsig => ?_⟩
  simp only [sigOf, Option.some.injEq] at hsig
  subst hsig
  constructor
  · intro h
    simp only [runTemplate, breakEvenPrecise, h, if_true]
  · intro h
    simp only [runTemplate, breakEvenPrecise, h, Bool.false_eq_true, if_false]
    exact ⟨_, rfl, rfl, rfl⟩

theorem reversePercentPrecise_ok : TmplSpec2 Tmpl.reversePercentPrecise := by
  intro d r s
  refine ⟨fun h => by simp [sigOf] at h, fun sig hsig => ?_⟩
  simp only [sigOf, Option.some.injEq] at hsig
  subst hsig
  constructor
  · intro h
    simp only [runTemplate, reversePercentPrecise, h, if_true]
  · intro h
    simp only [runTemplate, reversePercentPrecise, h, Bool.false_eq_true, if_false]
    exact ⟨_, rfl, rfl, rfl⟩

theorem costStructurePrecise_ok : TmplSpec2 Tmpl.costStructurePrecise := by
  intro d r s
  refine ⟨fun h => by simp [sigOf] at h, fun sig hsig => ?_⟩
  simp only [sigOf, Option.some.injEq] at hsig
  subst hsig
  constructor
  · intro h
    simp only [runTemplate, costStructurePrecise, h, if_true]
  · intro h
    simp only [runTemplate, costStructurePrecise, h, Bool.false_eq_true, if_false]
    exact ⟨_, rfl, rfl, rfl⟩

theorem compoundChangePrecise_ok : TmplSpec2 Tmpl.compoundChangePrecise := by
  intro d r s
  by_cases hd : d = Difficulty.easy
  · subst hd
    refine ⟨fun _ => by simp [runTemplate, compoundChangePrecise], fun sig hsig => ?_⟩
    simp [sigOf] at hsig
  · constructor
    · intro hnone
      simp only [sigOf, if_neg hd] at hnone
      exact absurd hnone (by simp)
    · intro sig hsig
      simp only [sigOf, if_neg hd, Option.some.injEq] at hsig
      subst hsig
      constructor
      · intro h
        simp only [runTemplate, compoundChangePrecise, if_neg hd, h, if_true]
      · intro h
        simp only [runTemplate, compoundChangePrecise, if_neg hd, h, Bool.false_eq_true,
          if_false]
        exact ⟨_, rfl, rfl, rfl⟩

theorem quickAddSubtract_ok : TmplSpec2 Tmpl.quickAddSubtract := by
  intro d r s
  by_cases hd : d = Difficulty.tough
  · subst hd
    refine ⟨fun _ => by simp [runTemplate, quickAddSubtract], fun sig hsig => ?_⟩
    simp [sigOf] at hsig
  · constructor
    · intro hnone
      simp only [sigOf] at hnone
      rw [if_neg hd] at hnone
      exact absurd hnone (by simp)
    · intro sig hsig
      simp only [sigOf] at hsig
      rw [if_neg hd] at hsig
      simp only [Option.some.injEq] at hsig
      subst hsig
      constructor
      · intro h
        simp only [runTemplate, quickAddSubtract, if_neg hd, h, if_true]
      · intro h
        simp only [runTemplate, quickAddSubtract, if_neg hd, h, Bool.false_eq_true, if_false]
        exact ⟨_, rfl, rfl, rfl⟩

theorem revenuePerEmployeeEstimate_ok : TmplSpec2 Tmpl.revenuePerEmployeeEstimate := by
  intro d r s
  refine ⟨fun h => by simp [sigOf] at h, fun sig hsig => ?_⟩
  simp only [sigOf, Option.some.injEq] at hsig
  subst hsig
  constructor
  · intro h
    simp only [runTemplate, revenuePerEmployeeEstimate, h, if_true]
  · intro h
    simp only [runTemplate, revenuePerEmployeeEstimate, h, Bool.false_eq_true, if_false]
    exact ⟨_, rfl, rfl, rfl⟩

theorem valuationMultipleEstimate_ok : TmplSpec2 Tmpl.valuationMultipleEstimate := by
  intro d r s
  refine ⟨fun h => by simp [sigOf] at h, fun sig hsig => ?_⟩
  simp only [sigOf, Option.some.injEq] at hsig
  subst hsig
  constructor
  · intro h
    simp only [runTemplate, valuationMultipleEstimate, h, if_true]
  · intro h
    simp only [runTemplate, valuationMultipleEstimate, h, Bool.false_eq_true, if_false]
    exact ⟨_, rfl, rfl, rfl⟩

/-- Every variant-2 template obeys the shared contract. -/
theorem runTemplate_spec2 (t : Tmpl) : TmplSpec2 t := by
  cases t with
  | percentOfNumberPrecise => exact percentOfNumberPrecise_ok
  | percentOfNumberEstimate => exact percentOfNumberEstimate_ok
  | multiplicationPrecise => exact multiplicationPrecise_ok
  | divisionPrecise => exact divisionPrecise_ok
  | profitMarginPrecise => exact profitMarginPrecise_ok
  | profitMarginEstimate => exact profitMarginEstimate_ok
  | perUnitPrecise => exact perUnitPrecise_ok
  | priceChangePrecise => exact priceChangePrecise_ok
  | marketShareEstimate => exact marketShareEstimate_ok
  | growthPrecise => exact growthPrecise_ok
  | growthEstimate => exact growthEstimate_ok
  | breakEvenPrecise => exact breakEvenPrecise_ok
  | reversePercentPrecise => exact reversePercentPrecise_ok
  | costStructurePrecise => exact costStructurePrecise_ok
  | compoundChangePrecise => exact compoundChangePrecise_ok
  | quickAddSubtract => exact quickAddSubtract_ok
  | revenuePerEmployeeEstimate => exact revenuePerEmployeeEstimate_ok
  | valuationMultipleEstimate => exact valuationMultipleEstimate_ok

end V2

end QGen

namespace QGen

/-- C6: for every template invocation (both variants), when the computed
signature is already in the recency set the template refuses (`none`) and
leaves the set completely unchanged; a non-refusing invocation inserts
exactly its signature; gated refusals also leave the set unchanged. -/
theorem template_refusal_frame :
    (∀ (t : V1.Tmpl) (d : Difficulty) (ty : QuestionType) (r : RNG) (s : RState)
        (sig : String), V1.sigOf t d ty r = some sig →
        (isRecent sig s = true → V1.runTemplate t d ty r s = (none, s))
        ∧ (isRecent sig s = false → ∃ q,
            V1.runTemplate t d ty r s = (some q, addToRecent V1.MAX_RECENT sig s)))
    ∧ (∀ (t : V2.Tmpl) (d : Difficulty) (r : RNG) (s : RState) (sig : String),
        V2.sigOf t d r = some sig →
        (isRecent sig s = true → V2.runTemplate t d r s = (none, s))
        ∧ (isRecent sig s = false → ∃ q,
            V2.runTemplate t d r s = (some q, addToRecent V2.MAX_RECENT sig s)))
    ∧ (∀ (t : V1.Tmpl) (d : Difficulty) (ty : QuestionType) (r : RNG) (s : RState),
        V1.sigOf t d ty r = none → V1.runTemplate t d ty r s = (none, s))
    ∧ (∀ (t : V2.Tmpl) (d : Difficulty) (r : RNG) (s : RState),
        V2.sigOf t d r = none → V2.runTemplate t d r s = (none, s)) := by
  refine ⟨?_, ?_, ?_, ?_⟩
  · intro t d ty r s sig hsig
    have h := (V1.runTemplate_spec1 t d ty r s).2 sig hsig
    exact ⟨h.1, fun hrec => (h.2 hrec).elim fun q hq => ⟨q, hq.1⟩⟩
  · intro t d r s sig hsig
    have h := (V2.runTemplate_spec2 t d r s).2 sig hsig
    exact ⟨h.1, fun hrec => (h.2 hrec).elim fun q hq => ⟨q, hq.1⟩⟩
  · intro t d ty r s h
    exact (V1.runTemplate_spec1 t d ty r s).1 h
  · intro t d r s h
    exact (V2.runTemplate_spec2 t d r s).1 h

/-- Witness for C6 on `percentOfNumber` at a concrete oracle: a fresh
signature is inserted, a recent signature refuses with the set unchanged. -/
theorem template_refusal_frame_w :
    (∃ q, V1.runTemplate V1.Tmpl.percentOfNumber Difficulty.easy QuestionType.accurate
        (fun _ => 0) [] = (some q, addToRecent V1.MAX_RECENT "pct_5_100" []))
    ∧ V1.runTemplate V1.Tmpl.percentOfNumber Difficulty.easy QuestionType.accurate
        (fun _ => 0) ["pct_5_100"] = (none, ["pct_5_100"]) := by
  have h1 := template_refusal_frame.1 V1.Tmpl.percentOfNumber Difficulty.easy
    QuestionType.accurate (fun _ => 0) [] "pct_5_100" (by rfl)
  have h2 := template_refusal_frame.1 V1.Tmpl.percentOfNumber Difficulty.easy
    QuestionType.accurate (fun _ => 0) ["pct_5_100"] "pct_5_100" (by rfl)
  exact ⟨h1.2 (by rfl), h2.1 (by rfl)⟩

namespace V1

theorem run_valid1 (t : Tmpl) (d : Difficulty) (ty : QuestionType) (r : RNG) (s : RState) :
    ∀ q s2, runTemplate t d ty r s = (some q, s2) → q.type = ty ∧ q.difficulty = d := by
  intro q s2 h
  have hspec := runTemplate_spec1 t d ty r s
  rcases hsig : sigOf t d ty r with _ | sig
  · rw [hspec.1 hsig] at h
    simp at h
  · have h2 := hspec.2 sig hsig
    cases hrec : isRecent sig s with
    | true =>
      rw [h2.1 hrec] at h
      simp at h
    | false =>
      obtain ⟨q', hq', hty, hd, _⟩ := h2.2 hrec
      rw [hq'] at h
      simp only [Prod.mk.injEq, Option.some.injEq] at h
      rw [← h.1]
      exact ⟨hty, hd⟩

theorem attemptLoop_valid1 (ty : QuestionType) (d : Difficulty) (ρ : Nat → RNG) :
    ∀ (fuel attempt : Nat) (s : RState) (q : Question) (s2 : RState),
      attemptLoop ty d ρ fuel attempt s = (some q, s2) → q.type = ty ∧ q.difficulty = d := by
  intro fuel
  induction fuel with
  | zero =>
    intro attempt s q s2 h
    simp [attemptLoop] at h
  | succ n ih =>
    intro attempt s q s2 h
    simp only [attemptLoop] at h
    rcases hrun : runTemplate
        (randomChoice (getTemplatesForDifficulty d ty) Tmpl.percentOfNumber (ρ attempt 0))
        d ty (shiftRNG (ρ attempt) 1) s with ⟨o, s3⟩
    rw [hrun] at h
    cases o with
    | some q2 =>
      simp only [Prod.mk.injEq, Option.some.injEq] at h
      obtain ⟨hq, _⟩ := h
      subst hq
      exact run_valid1 _ d ty _ s q2 s3 hrun
    | none =>
      exact ih (attempt + 1) s3 q s2 h

end V1

namespace V2

theorem run_valid2 (t : Tmpl) (d : Difficulty) (r : RNG) (s : RState) :
    ∀ q s2, runTemplate t d r s = (some q, s2) → q.type = tmplType t ∧ q.difficulty = d := by
  intro q s2 h
  have hspec := runTemplate_spec2 t d r s
  rcases hsig : sigOf t d r with _ | sig
  · rw [hspec.1 hsig] at h
    simp at h
  · have h2 := hspec.2 sig hsig
    cases hrec : isRecent sig s with
    | true =>
      rw [h2.1 hrec] at h
      simp at h
    | false =>
      obtain ⟨q', hq', hty, hd⟩ := h2.2 hrec
      rw [hq'] at h
      simp only [Prod.mk.injEq, Option.some.injEq] at h
      rw [← h.1]
      exact ⟨hty, hd⟩

theorem precise_all_accurate :
    ∀ (d : Difficulty), ∀ t ∈ preciseTemplates d, tmplType t = QuestionType.accurate := by
  intro d
  cases d <;> decide

theorem estimate_all_estimate :
    ∀ t ∈ estimateTemplates, tmplType t = QuestionType.estimate := by
  decide

theorem generatePreciseQuestion_valid (d : Difficulty) (r : RNG) (s : RState) :
    ∀ q s2, generatePreciseQuestion d r s = (some q, s2) →
      q.type = QuestionType.accurate ∧ q.difficulty = d := by
  intro q s2 h
  unfold generatePreciseQuestion at h
  have hne : preciseTemplates d ≠ [] := by
    cases d <;> simp [preciseTemplates]
  have hmem := randomChoice_mem (preciseTemplates d) Tmpl.percentOfNumberPrecise (r 0) hne
  have hval := run_valid2 _ d (shiftRNG r 1) s q s2 h
  exact ⟨(precise_all_accurate d _ hmem) ▸ hval.1, hval.2⟩

theorem generateEstimateQuestion_valid (d : Difficulty) (r : RNG) (s : RState) :
    ∀ q s2, generateEstimateQuestion d r s = (some q, s2) →
      q.type = QuestionType.estimate ∧ q.difficulty = d := by
  intro q s2 h
  unfold generateEstimateQuestion at h
  have hmem := randomChoice_mem estimateTemplates Tmpl.percentOfNumberEstimate (r 0)
    (by simp [estimateTemplates])
  have hval := run_valid2 _ d (shiftRNG r 1) s q s2 h
  exact ⟨(estimate_all_estimate _ hmem) ▸ hval.1, hval.2⟩

theorem attemptLoop_valid2 (ty : QuestionType) (d : Difficulty) (ρ : Nat → RNG) :
    ∀ (fuel attempt : Nat) (s : RState) (q : Question) (s2 : RState),
      attemptLoop ty d ρ fuel attempt s = (some q, s2) → q.type = ty ∧ q.difficulty = d := by
  intro fuel
  induction fuel with
  | zero =>
    intro attempt s q s2 h
    simp [attemptLoop] at h
  | succ n ih =>
    intro attempt s q s2 h
    simp only [attemptLoop] at h
    by_cases hty : ty = QuestionType.accurate
    · rw [if_pos hty] at h
      rcases hrun : generatePreciseQuestion d (ρ attempt) s with ⟨o, s3⟩
      rw [hrun] at h
      cases o with
      | some q2 =>
        simp only [Prod.mk.injEq, Option.some.injEq] at h
        obtain ⟨hq, _⟩ := h
        subst hq
        have := generatePreciseQuestion_valid d (ρ attempt) s q2 s3 hrun
        exact ⟨hty ▸ this.1, this.2⟩
      | none =>
        exact ih (attempt + 1) s3 q s2 h
    · rw [if_neg hty] at h
      rcases hrun : generateEstimateQuestion d (ρ attempt) s with ⟨o, s3⟩
      rw [hrun] at h
      cases o with
      | some q2 =>
        simp only [Prod.mk.injEq, Option.some.injEq] at h
        obtain ⟨hq, _⟩ := h
        subst hq
        have := generateEstimateQuestion_valid d (ρ attempt) s q2 s3 hrun
        have hty2 : ty = QuestionType.estimate := by
          cases ty
          · exact absurd rfl hty
          · rfl
        exact ⟨hty2 ▸ this.1, this.2⟩
      | none =>
        exact ih (attempt + 1) s3 q s2 h

end V2

/-- C1: both `generateQuestion` variants are total Lean functions (the retry
loop is structurally bounded by `maxAttempts`, 30 in variant 1 and 50 in
variant 2, and the fallback is a straight-line computation), and for every
oracle and recency state they return a non-null Question carrying the
requested type and difficulty. -/
theorem generateQuestion_total_valid :
    V1.maxAttempts = 30 ∧ V2.maxAttempts = 50
    ∧ (∀ (ty : QuestionType) (d : Difficulty) (ρ : Nat → RNG) (s : RState),
        ∃ q s2, V1.generateQuestion ty d ρ s = (q, s2) ∧ q.type = ty ∧ q.difficulty = d)
    ∧ (∀ (ty : QuestionType) (d : Difficulty) (ρ : Nat → RNG) (s : RState),
        ∃ q s2, V2.generateQuestion ty d ρ s = (q, s2) ∧ q.type = ty ∧ q.difficulty = d) := by
  refine ⟨rfl, rfl, ?_, ?_⟩
  · intro ty d ρ s
    rcases hloop : V1.attemptLoop ty d ρ V1.maxAttempts 0 s with ⟨o, s2⟩
    cases o with
    | some q =>
      refine ⟨q, s2, ?_, V1.attemptLoop_valid1 ty d ρ V1.maxAttempts 0 s q s2 hloop⟩
      simp only [V1.generateQuestion, hloop]
    | none =>
      refine ⟨(V1.generateQuestion ty d ρ s).1, (V1.generateQuestion ty d ρ s).2, rfl, ?_, ?_⟩
      · simp only [V1.generateQuestion, hloop]
      · simp only [V1.generateQuestion, hloop]
  · intro ty d ρ s
    rcases hloop : V2.attemptLoop ty d ρ V2.maxAttempts 0 s with ⟨o, s2⟩
    cases o with
    | some q =>
      refine ⟨q, s2, ?_, V2.attemptLoop_valid2 ty d ρ V2.maxAttempts 0 s q s2 hloop⟩
      simp only [V2.generateQuestion, hloop]
    | none =>
      refine ⟨(V2.generateQuestion ty d ρ s).1, (V2.generateQuestion ty d ρ s).2, rfl, ?_, ?_⟩
      · simp only [V2.generateQuestion, hloop]
      · simp only [V2.generateQuestion, hloop]

end QGen

namespace QGen

/-- C4 (amended): for every variant-1 template other than `costStructure`,
`compoundPercentage`, `weightedAverage` and `multiYearGrowth`, every
produced Question's `correctAnswer` is exactly recomputable by re-applying
the operation named in `meta` to the operands stored in `meta`. The four
excluded templates omit an operand needed by their formula (the
profit-vs-costs coin, the second percentage and direction, the weight, the
year count respectively). -/
theorem meta_reproducible :
    ∀ (t : V1.Tmpl), reproducibleTmpl t = true →
      ∀ (d : Difficulty) (ty : QuestionType) (r : RNG) (s : RState) (q : Question)
        (s2 : RState), V1.runTemplate t d ty r s = (some q, s2) →
        ∃ m, q.meta = some m ∧ recomputeAnswer m = some q.correctAnswer := by
  intro t hrep d ty r s q s2 h
  have hspec := V1.runTemplate_spec1 t d ty r s
  rcases hsig : V1.sigOf t d ty r with _ | sig
  · rw [hspec.1 hsig] at h
    simp at h
  · have h2 := hspec.2 sig hsig
    cases hrec : isRecent sig s with
    | true =>
      rw [h2.1 hrec] at h
      simp at h
    | false =>
      obtain ⟨q', hq', _, _, hmeta⟩ := h2.2 hrec
      rw [hq'] at h
      simp only [Prod.mk.injEq, Option.some.injEq] at h
      rw [← h.1]
      exact hmeta hrep

/-- Witness for C4's amended theorem: a concrete `percentOfNumber` run
whose answer is recomputed from its `meta`. -/
theorem meta_reproducible_w :
    ∃ q s2 m, V1.runTemplate V1.Tmpl.percentOfNumber Difficulty.easy QuestionType.accurate
        (fun _ => 0) [] = (some q, s2)
      ∧ q.meta = some m ∧ recomputeAnswer m = some q.correctAnswer := by
  rcases hrun : V1.runTemplate V1.Tmpl.percentOfNumber Difficulty.easy QuestionType.accurate
      (fun _ => 0) [] with ⟨o, s2⟩
  cases o with
  | none =>
    have hs : (V1.runTemplate V1.Tmpl.percentOfNumber Difficulty.easy QuestionType.accurate
        (fun _ => 0) []).1.isSome = true := rfl
    rw [hrun] at hs
    simp at hs
  | some q =>
    obtain ⟨m, hm, hr⟩ := meta_reproducible V1.Tmpl.percentOfNumber rfl Difficulty.easy
      QuestionType.accurate (fun _ => 0) [] q s2 hrun
    exact ⟨q, s2, m, rfl, hm, hr⟩

/-- C4 counterexample: two `compoundPercentage` invocations (medium
difficulty, empty recency set) produce Questions with IDENTICAL `meta`
(base 10000, percent 10, operation "compound") but different answers
(12100 vs 13200), because the second percentage is not recorded in `meta`;
so `correctAnswer` is not reproducible from the `meta` operands. -/
theorem meta_not_reproducible_cex :
    (V1.runTemplate V1.Tmpl.compoundPercentage Difficulty.medium QuestionType.accurate
        (fun _ => 0) []).1.bind Question.meta
      = (V1.runTemplate V1.Tmpl.compoundPercentage Difficulty.medium QuestionType.accurate
        (fun n => if n == 2 then 1 else 0) []).1.bind Question.meta
    ∧ (V1.runTemplate V1.Tmpl.compoundPercentage Difficulty.medium QuestionType.accurate
        (fun _ => 0) []).1.map Question.correctAnswer = some 12100
    ∧ (V1.runTemplate V1.Tmpl.compoundPercentage Difficulty.medium QuestionType.accurate
        (fun n => if n == 2 then 1 else 0) []).1.map Question.correctAnswer = some 13200 := by
  refine ⟨rfl, ?_, ?_⟩
  · show some ((10000 : ℚ) * ((1 + 10 / 100) * (1 + 10 / 100))) = some 12100
    norm_num
  · show some ((10000 : ℚ) * ((1 + 10 / 100) * (1 + 20 / 100))) = some 13200
    norm_num

/-- C5 (amended): on retry exhaustion, variant 1's fallback draws from the
REQUESTED difficulty's primary pools with no recency check and returns
`base * pct / 100`, leaving the recency state exactly as the loop left it;
variant 2's fallback instead always draws from the easy precise pools
(`PRECISE_EASY_BASES`, `PRECISE_EASY_PERCENTAGES`) regardless of the
requested difficulty, also returning `base * pct / 100`. Both fallbacks
are straight-line total computations that cannot fail or loop. -/
theorem fallback_pools :
    (∀ (ty : QuestionType) (d : Difficulty) (ρ : Nat → RNG) (s : RState),
        (V1.attemptLoop ty d ρ V1.maxAttempts 0 s).1 = none →
        ∃ base pct : ℚ, base ∈ V1.fallbackBases d ∧ pct ∈ V1.fallbackPcts d
          ∧ (V1.generateQuestion ty d ρ s).1.correctAnswer = base * pct / 100
          ∧ (V1.generateQuestion ty d ρ s).1.meta = some ⟨base, some pct, none, "percent"⟩
          ∧ (V1.generateQuestion ty d ρ s).2 = (V1.attemptLoop ty d ρ V1.maxAttempts 0 s).2)
    ∧ (∀ (ty : QuestionType) (d : Difficulty) (ρ : Nat → RNG) (s : RState),
        (V2.attemptLoop ty d ρ V2.maxAttempts 0 s).1 = none →
        ∃ base pct : ℚ, base ∈ V2.PRECISE_EASY_BASES ∧ pct ∈ V2.PRECISE_EASY_PERCENTAGES
          ∧ (V2.generateQuestion ty d ρ s).1.correctAnswer = base * pct / 100
          ∧ (V2.generateQuestion ty d ρ s).1.meta = some ⟨base, some pct, none, "percent"⟩
          ∧ (V2.generateQuestion ty d ρ s).2
              = (V2.attemptLoop ty d ρ V2.maxAttempts 0 s).2) := by
  constructor
  · intro ty d ρ s h
    rcases hloop : V1.attemptLoop ty d ρ V1.maxAttempts 0 s with ⟨o, s2⟩
    rw [hloop] at h
    simp only at h
    subst h
    refine ⟨randomChoice (V1.fallbackBases d) 0 (ρ V1.maxAttempts 0),
      randomChoice (V1.fallbackPcts d) 0 (ρ V1.maxAttempts 1),
      randomChoice_mem _ 0 _ ?_, randomChoice_mem _ 0 _ ?_, ?_, ?_, ?_⟩
    · cases d <;>
        simp [V1.fallbackBases, V1.EASY_BASES, V1.MEDIUM_BASES, V1.TOUGH_BASES]
    · cases d <;>
        simp [V1.fallbackPcts, V1.EASY_PERCENTAGES, V1.MEDIUM_PERCENTAGES,
          V1.TOUGH_PERCENTAGES]
    · simp only [V1.generateQuestion, hloop]
    · simp only [V1.generateQuestion, hloop]
    · simp only [V1.generateQuestion, hloop]
  · intro ty d ρ s h
    rcases hloop : V2.attemptLoop ty d ρ V2.maxAttempts 0 s with ⟨o, s2⟩
    rw [hloop] at h
    simp only at h
    subst h
    refine ⟨randomChoice V2.PRECISE_EASY_BASES 0 (ρ V2.maxAttempts 0),
      randomChoice V2.PRECISE_EASY_PERCENTAGES 0 (ρ V2.maxAttempts 1),
      randomChoice_mem _ 0 _ ?_, randomChoice_mem _ 0 _ ?_, ?_, ?_, ?_⟩
    · simp [V2.PRECISE_EASY_BASES]
    · simp [V2.PRECISE_EASY_PERCENTAGES]
    · simp only [V2.generateQuestion, hloop]
    · simp only [V2.generateQuestion, hloop]
    · simp only [V2.generateQuestion, hloop]

/-- Witness for C5's amended theorem: a concrete variant-1 easy run whose
30 attempts all hit a recent signature, so the returned question comes from
the fallback and its operands sit in the easy pools. -/
theorem fallback_pools_w :
    ∃ base pct : ℚ, base ∈ V1.fallbackBases Difficulty.easy
      ∧ pct ∈ V1.fallbackPcts Difficulty.easy
      ∧ (V1.generateQuestion QuestionType.accurate Difficulty.easy (fun _ _ => 0)
          ["pct_5_100"]).1.correctAnswer = base * pct / 100
      ∧ (V1.generateQuestion QuestionType.accurate Difficulty.easy (fun _ _ => 0)
          ["pct_5_100"]).1.meta = some ⟨base, some pct, none, "percent"⟩
      ∧ (V1.generateQuestion QuestionType.accurate Difficulty.easy (fun _ _ => 0)
          ["pct_5_100"]).2
          = (V1.attemptLoop QuestionType.accurate Difficulty.easy (fun _ _ => 0)
              V1.maxAttempts 0 ["pct_5_100"]).2 :=
  fallback_pools.1 QuestionType.accurate Difficulty.easy (fun _ _ => 0) ["pct_5_100"] (by rfl)

/-- C5 counterexample: a variant-2 call requesting `tough` that exhausts
all 50 attempts falls back to operands from the EASY precise pools — base
100 and percentage 10 — neither of which lies in the tough precise pools,
contradicting "from the requested difficulty's primary pools". -/
theorem fallback_pools_cex :
    (V2.attemptLoop QuestionType.accurate Difficulty.tough (fun _ _ => 0) V2.maxAttempts 0
        ["pct_precise_15_125"]).1 = none
    ∧ (V2.generateQuestion QuestionType.accurate Difficulty.tough (fun _ _ => 0)
        ["pct_precise_15_125"]).1.meta = some ⟨100, some 10, none, "percent"⟩
    ∧ (100 : ℚ) ∉ V2.PRECISE_TOUGH_BASES
    ∧ (10 : ℚ) ∉ V2.PRECISE_TOUGH_PERCENTAGES := by
  refine ⟨rfl, rfl, by decide, by decide⟩

end QGen

namespace QGen

/-- C8 (amended): variant 1's `breakEvenTarget` rounds up — whenever it
returns a Question, `correctAnswer = ⌈fixedCosts / contribution⌉`, an
integer-valued rational (denominator 1); variant 2's `breakEvenPrecise`
instead returns the raw quotient `fixedCosts / contribution` with NO
rounding, which is not always a whole number. -/
theorem breakEven_rounding :
    (∀ (d : Difficulty) (ty : QuestionType) (r : RNG) (s : RState) (q : Question)
        (s2 : RState),
        V1.runTemplate V1.Tmpl.breakEvenTarget d ty r s = (some q, s2) →
        q.correctAnswer = ((⌈V1.breakEvenFixedCosts d r /
            (V1.breakEvenPrice d r - V1.breakEvenVariableCost d r)⌉ : ℤ) : ℚ)
          ∧ q.correctAnswer.den = 1)
    ∧ (∀ (d : Difficulty) (r : RNG) (s : RState) (q : Question) (s2 : RState),
        V2.runTemplate V2.Tmpl.breakEvenPrecise d r s = (some q, s2) →
        q.correctAnswer = V2.breakEvenPreciseFixedCosts d r /
          (V2.breakEvenPrecisePrice d r - V2.breakEvenPreciseVariableCost d r)) := by
  constructor
  · intro d ty r s q s2 h
    simp only [V1.runTemplate, V1.breakEvenTarget] at h
    cases hrec : isRecent (V1.breakEvenTargetSig d r) s with
    | true =>
      rw [hrec] at h
      simp at h
    | false =>
      rw [hrec] at h
      simp only [Bool.false_eq_true, if_false, Prod.mk.injEq, Option.some.injEq] at h
      rw [← h.1]
      exact ⟨rfl, Rat.den_intCast _⟩
  · intro d r s q s2 h
    simp only [V2.runTemplate, V2.breakEvenPrecise] at h
    cases hrec : isRecent (V2.breakEvenPreciseSig d r) s with
    | true =>
      rw [hrec] at h
      simp at h
    | false =>
      rw [hrec] at h
      simp only [Bool.false_eq_true, if_false, Prod.mk.injEq, Option.some.injEq] at h
      rw [← h.1]

/-- Witness for C8's amended theorem: a concrete variant-1 easy break-even
run (fixed costs 10000, price 50, variable cost 20, contribution 30) whose
answer is `⌈10000 / 30⌉ = 334`, a whole number. -/
theorem breakEven_rounding_w :
    ∃ q s2, V1.runTemplate V1.Tmpl.breakEvenTarget Difficulty.easy QuestionType.accurate
        (fun _ => 0) [] = (some q, s2)
      ∧ q.correctAnswer = ((⌈V1.breakEvenFixedCosts Difficulty.easy (fun _ => 0) /
          (V1.breakEvenPrice Difficulty.easy (fun _ => 0)
            - V1.breakEvenVariableCost Difficulty.easy (fun _ => 0))⌉ : ℤ) : ℚ)
      ∧ q.correctAnswer.den = 1 := by
  rcases hrun : V1.runTemplate V1.Tmpl.breakEvenTarget Difficulty.easy QuestionType.accurate
      (fun _ => 0) [] with ⟨o, s2⟩
  cases o with
  | none =>
    have hs : (V1.runTemplate V1.Tmpl.breakEvenTarget Difficulty.easy QuestionType.accurate
        (fun _ => 0) []).1.isSome = true := rfl
    rw [hrun] at hs
    simp at hs
  | some q =>
    obtain ⟨h1, h2⟩ := breakEven_rounding.1 Difficulty.easy QuestionType.accurate
      (fun _ => 0) [] q s2 hrun
    exact ⟨q, s2, rfl, h1, h2⟩

/-- C8 counterexample: variant 2's break-even template at medium
difficulty with fixed costs 90000 and price 80 (variable cost 48,
contribution 32) returns `correctAnswer = 90000 / 32 = 2812.5` — not
rounded up to the next whole unit and not a whole number. -/
theorem breakEven_rounding_cex :
    (V2.runTemplate V2.Tmpl.breakEvenPrecise Difficulty.medium
        (fun n => if n == 0 then 1 else if n == 1 then 2 else 0) []).1.map
          Question.correctAnswer = some (5625 / 2 : ℚ)
    ∧ (5625 / 2 : ℚ) ≠ ((⌈(5625 / 2 : ℚ)⌉ : ℤ) : ℚ) := by
  constructor
  · show some ((90000 : ℚ) / (80 - 80 * 0.6)) = some (5625 / 2 : ℚ)
    norm_num
  · intro h
    have hceil : ⌈(5625 / 2 : ℚ)⌉ = 2813 := by
      rw [Int.ceil_eq_iff]
      norm_num
    rw [hceil] at h
    norm_num at h

end QGen
